import Mathlib

/-!
Verification of the multi-document generation orchestrator
(compliance-agent repository: src/src/marketing_workflow.py,
src/src/compliance_workflow.py, src/src/compliance_workflow_fixed.py).

The Python run state is a TypedDict of mutable fields; we embed it as a
Lean structure whose dictionary-valued fields are insertion-ordered
association lists (Python dict semantics: assignment updates in place or
appends a fresh key at the end).  External collaborators (the LLM
generation client and validators) are parameters: a function from a
document id to the structured outcome the collaborator returns.
Timestamps (`created_at`, `updated_at`) are untranslatable real-time
bookkeeping and are omitted; no claim mentions them.
-/

/-- Lookup in an insertion-ordered association list.  Models a Python
dictionary read `d.get(k)` / `d[k]` (returns `none` for a missing key). -/
def dget {α : Type} (m : List (String × α)) (k : String) : Option α :=
  match m with
  | [] => none
  | (k2, v) :: rest => if k2 = k then some v else dget rest k

/-- Update-or-append.  Models a Python dictionary assignment `d[k] = v`:
an existing key keeps its position, a new key is appended at the end. -/
def dset {α : Type} (m : List (String × α)) (k : String) (v : α) : List (String × α) :=
  match m with
  | [] => [(k, v)]
  | (k2, v2) :: rest => if k2 = k then (k2, v) :: rest else (k2, v2) :: dset rest k v

namespace Marketing

/-- Document status enumeration of `marketing_workflow.py`
(`class DocumentStatus(str, Enum)`).  Note that `VALIDATED` is not among
the declared members. -/
inductive DocumentStatus where
  | PENDING
  | GENERATING
  | REVIEWING
  | VALIDATING
  | COMPLETED
  | FAILED
  | REQUIRES_REVISION
deriving DecidableEq

/-- Attribute lookup `DocumentStatus.<name>` on the marketing enumeration.
Accessing a name that is not a declared member raises `AttributeError`
carrying the attribute name, modelled as `Except.error name`. -/
def documentStatusAttr (name : String) : Except String DocumentStatus :=
  if name = "PENDING" then .ok .PENDING
  else if name = "GENERATING" then .ok .GENERATING
  else if name = "REVIEWING" then .ok .REVIEWING
  else if name = "VALIDATING" then .ok .VALIDATING
  else if name = "COMPLETED" then .ok .COMPLETED
  else if name = "FAILED" then .ok .FAILED
  else if name = "REQUIRES_REVISION" then .ok .REQUIRES_REVISION
  else .error name

/-- Entry of `document_plans`.  The scheduler and the individual-validation
loop read only the `document_id` key of a plan dictionary, so the other
descriptive keys (title, type, sections, ...) are not carried. -/
structure DocPlan where
  document_id : String
deriving DecidableEq

/-- Entry stored into `document_contents`: either generated content or the
error record `{"error": e}` written on a failure. -/
inductive DocContent where
  | generated (c : String)
  | error_entry (e : String)
deriving DecidableEq

/-- Outcome of one `generate_document_content` task for a document id, as
observed by `generate_all_documents` after `asyncio.gather(...,
return_exceptions=True)`: a success-shaped result, an error-shaped result,
or a raised exception captured by gather. -/
inductive GenOutcome where
  | success (content : String)
  | failure (error : String)
  | raised (error : String)
deriving DecidableEq

/-- The `MarketingDocumentState` fields the verified claims touch.
Collections that `ensure_state_initialization` would default to empty are
modelled as always-present lists; `error_message` and `retry_count`, whose
missing-key reads use explicit `.get` defaults in the source, keep the
optional shape. -/
structure MarketingDocumentState where
  document_plans : List DocPlan
  document_dependencies : List (String × List String)
  document_contents : List (String × DocContent)
  document_status : List (String × DocumentStatus)
  validation_results : List (String × Bool)
  quality_scores : List (String × Rat)
  status : String
  current_stage : String
  error_message : Option String
  retry_count : Option Nat
  messages : List String
deriving DecidableEq

/-- Message appended by `handle_node_error`. -/
def processingErrorMessage (node_name : String) (retry : Nat) : String :=
  "Processing error in " ++ node_name ++ ". Retry attempt " ++ toString retry ++ "/3."

/-- Centralized error handling of `marketing_workflow.py`
(`handle_node_error`): records `"<node> failed: <error>"`, increments the
run-level retry counter (missing counter reads as 0), appends one log
message carrying the new count, and returns the mutated state. -/
def handle_node_error (state : MarketingDocumentState) (error : String)
    (node_name : String) : MarketingDocumentState :=
  let rc := state.retry_count.getD 0 + 1
  { state with
      error_message := some (node_name ++ " failed: " ++ error)
      retry_count := some rc
      messages := state.messages ++ [processingErrorMessage node_name rc] }

/-- Dependency list of a document id: `state["document_dependencies"].get(doc_id, [])`. -/
def depsOf (deps : List (String × List String)) (id : String) : List String :=
  (dget deps id).getD []

/-- Mutable loop state of the dependency-resolution loop inside
`generate_all_documents`: the `generated_docs` keys, the document status
and contents dictionaries, and the `pending_docs` work list. -/
structure GenLoopState where
  generated : List String
  document_status : List (String × DocumentStatus)
  document_contents : List (String × DocContent)
  pending : List DocPlan
deriving DecidableEq

/-- One round's batch: all still-pending plans whose dependencies are all
already in `generated_docs`. -/
def docsToGenerate (deps : List (String × List String)) (s : GenLoopState) : List DocPlan :=
  s.pending.filter (fun p => (depsOf deps p.document_id).all (fun d => decide (d ∈ s.generated)))

/-- Processing of one `(doc_plan, result)` pair of a batch: store content
or error, set the status, record success into `generated_docs`, and drop
every pending entry with this document id. -/
def processDoc (gen : String → GenOutcome) (s : GenLoopState) (p : DocPlan) : GenLoopState :=
  let remaining := s.pending.filter (fun d => decide (d.document_id ≠ p.document_id))
  match gen p.document_id with
  | .raised e =>
    { s with
        document_status := dset s.document_status p.document_id .FAILED
        document_contents := dset s.document_contents p.document_id (.error_entry e)
        pending := remaining }
  | .success c =>
    { s with
        document_status := dset s.document_status p.document_id .REVIEWING
        document_contents := dset s.document_contents p.document_id (.generated c)
        generated := s.generated ++ [p.document_id]
        pending := remaining }
  | .failure e =>
    { s with
        document_status := dset s.document_status p.document_id .FAILED
        document_contents := dset s.document_contents p.document_id (.error_entry e)
        pending := remaining }

/-- Sequential processing of one dispatched batch (the zip loop over
`(docs_to_generate, results)`). -/
def processBatch (gen : String → GenOutcome) (s : GenLoopState) (batch : List DocPlan) :
    GenLoopState :=
  batch.foldl (processDoc gen) s

/-- The bounded while-loop of `generate_all_documents`: at most `fuel`
rounds (`max_iterations = 2 * len(document_plans)` at the call site); a
round that frees no document breaks out of the loop. -/
def generationRounds (gen : String → GenOutcome) (deps : List (String × List String)) :
    Nat → GenLoopState → GenLoopState
  | 0, s => s
  | fuel + 1, s =>
    if s.pending.isEmpty then s
    else
      let batch := docsToGenerate deps s
      if batch.isEmpty then s
      else generationRounds gen deps fuel (processBatch gen s batch)

/-- The `generate_all_documents` stage of `marketing_workflow.py`,
parameterized by the generation-client outcome per document id. -/
def generate_all_documents (gen : String → GenOutcome)
    (state : MarketingDocumentState) : MarketingDocumentState :=
  let plans := state.document_plans
  let max_iterations := plans.length * 2
  let final := generationRounds gen state.document_dependencies max_iterations
    { generated := []
      document_status := state.document_status
      document_contents := state.document_contents
      pending := plans }
  let successful :=
    (final.document_status.filter (fun kv => decide (kv.2 = DocumentStatus.REVIEWING))).length
  { state with
      status := "generating_documents"
      current_stage := "document_generation"
      document_status := final.document_status
      document_contents := final.document_contents
      messages := state.messages ++
        ["Document generation complete: " ++ toString successful ++ "/" ++
          toString plans.length ++ " documents generated successfully."] }

/-- Outcome the validation LLM returns for one document inside
`validate_individual_documents` (marketing variant), after JSON parsing:
either an error-shaped reply, or a parsed result with the fields the stage
reads (`overall_pass`, `quality_score`, and whether `issues_found` holds a
critical-severity issue). -/
structure ValidationOutcome where
  has_error : Bool
  overall_pass : Bool
  quality_score : Rat
  has_critical_issue : Bool

/-- Body of the per-document loop of the marketing
`validate_individual_documents`: iterates the `document_contents` items,
skipping documents not in `REVIEWING` status or without a plan; on a
parsed validation result it stores the result and score, then updates the
status — the pass branches evaluate `DocumentStatus.VALIDATED`, an
attribute that does not exist, so those branches raise.  Returns the state
as mutated so far, plus the raised attribute name if the loop aborted. -/
def validateDocsLoop (validate : String → ValidationOutcome)
    (entries : List (String × DocContent)) (state : MarketingDocumentState) :
    MarketingDocumentState × Option String :=
  match entries with
  | [] => (state, none)
  | (doc_id, _content) :: rest =>
    if dget state.document_status doc_id ≠ some DocumentStatus.REVIEWING then
      validateDocsLoop validate rest state
    else if (state.document_plans.find? (fun p => decide (p.document_id = doc_id))).isNone then
      validateDocsLoop validate rest state
    else
      let v := validate doc_id
      if v.has_error then
        validateDocsLoop validate rest
          { state with
              validation_results := dset state.validation_results doc_id false
              quality_scores := dset state.quality_scores doc_id (1 / 2) }
      else
        let state1 :=
          { state with
              validation_results := dset state.validation_results doc_id true
              quality_scores := dset state.quality_scores doc_id v.quality_score }
        if v.overall_pass then
          match documentStatusAttr "VALIDATED" with
          | .ok st =>
            validateDocsLoop validate rest
              { state1 with document_status := dset state1.document_status doc_id st }
          | .error name => (state1, some name)
        else if v.has_critical_issue then
          validateDocsLoop validate rest
            { state1 with
                document_status :=
                  dset state1.document_status doc_id DocumentStatus.REQUIRES_REVISION }
        else
          match documentStatusAttr "VALIDATED" with
          | .ok st =>
            validateDocsLoop validate rest
              { state1 with document_status := dset state1.document_status doc_id st }
          | .error name => (state1, some name)

/-- The `validate_individual_documents` stage of `marketing_workflow.py`:
runs the per-document loop inside the stage-level try, and on a raised
exception exits through `handle_node_error`.  The final success message
(which averages the quality scores) is abstracted to a fixed label since
no claim reads it. -/
def validate_individual_documents (validate : String → ValidationOutcome)
    (state : MarketingDocumentState) : MarketingDocumentState :=
  let state0 :=
    { state with status := "validating_documents", current_stage := "individual_validation" }
  match validateDocsLoop validate state0.document_contents state0 with
  | (s, some err) => handle_node_error s err "validate_individual_documents"
  | (s, none) => { s with messages := s.messages ++ ["Individual validation complete."] }

end Marketing

/-- Substring test used to embed the keyword scans of the source
(`"legal" in description_lower`, ...). -/
def str_contains (s pat : String) : Bool := decide (pat.data <:+: s.data)

/-- Whitespace strip of Python `str.strip()`, over the character list. -/
def py_strip (s : String) : String :=
  String.mk ((s.data.dropWhile Char.isWhitespace).reverse.dropWhile Char.isWhitespace).reverse

namespace CW

/-- Document status enumeration of `compliance_workflow.py`. -/
inductive DocumentStatus where
  | PENDING
  | IN_PROGRESS
  | COMPLETED
  | FAILED
  | REQUIRES_REVIEW
deriving DecidableEq

/-- Assessment (run-level) status enumeration of `compliance_workflow.py`. -/
inductive AssessmentStatus where
  | INITIATED
  | ANALYZING_PROJECT
  | PLANNING_DOCUMENTS
  | GENERATING_DOCUMENTS
  | CONSOLIDATING_RESULTS
  | COMPLETED
  | FAILED
deriving DecidableEq

/-- One entry of the `deliverable_blueprint` request input: a dictionary
whose keys are all read through `.get` with a default, hence optional. -/
structure BlueprintItem where
  title : Option String
  format : Option String
  description : Option String
  quality_requirements : Option (List String)
deriving DecidableEq

/-- Document requirement dictionary built per blueprint entry by
`analyze_project_requirements` (blueprint branch). -/
structure DocRequirement where
  document_type : String
  document_title : String
  priority : String
  complexity : String
  estimated_effort : String
  dependencies : List String
  frameworks_applicable : List String
  target_audience : String
  format_requirements : String
  length_estimate : String
  special_requirements : String
  quality_requirements : List String
  blueprint_specification : BlueprintItem
  deliverable_index : Nat
  is_from_blueprint : Bool
deriving DecidableEq

/-- Execution plan attached to a document plan.  Its JSON payload is
opaque to every claim, so an ok-reply keeps the raw payload while the
error path carries the fixed standard fallback plan of the source. -/
inductive ExecutionPlan where
  | from_llm (payload : String)
  | standard_fallback
deriving DecidableEq

/-- A document plan as built by `create_document_plans` (the
`created_at` timestamp is omitted). -/
structure DocumentPlan where
  document_id : String
  document_requirement : DocRequirement
  execution_plan : ExecutionPlan
  status : DocumentStatus
deriving DecidableEq

/-- One entry of `main_sections` in generated content; only
`section_title` is read (via `.get`, hence optional). -/
structure SectionRec where
  section_title : Option String
deriving DecidableEq

/-- The `document_metadata` record of generated content; only the keys
the verified stages read are carried, all read through `.get`. -/
structure DocumentMetadata where
  document_type : Option String
  title : Option String
deriving DecidableEq

/-- The `document_content` record of generated content. -/
structure MainContent where
  main_sections : List SectionRec
deriving DecidableEq

/-- Generated document content as consumed by the validation and
consolidation stages. -/
structure GeneratedContent where
  document_metadata : Option DocumentMetadata
  document_content : Option MainContent
deriving DecidableEq

/-- One generation outcome dictionary stored into `document_results`
(the `generated_at` timestamp is omitted).  `content` is present exactly
when the source dictionary has a `"content"` key. -/
structure DocumentResult where
  document_id : String
  status : DocumentStatus
  success : Bool
  content : Option GeneratedContent
  error : Option String
deriving DecidableEq

/-- Trace entry added by `handle_node_error` via `add_trace_data`
(timestamp omitted). -/
structure TraceEntry where
  error : String
  retry_count : Nat
deriving DecidableEq

/-- Per-document record of `individual_validation_results`: the source
stores a status string `"skipped"` / `"validated"` / `"validation_error"`
plus, when validated, the parsed data from which only
`overall_validation.passed` is later read. -/
inductive IndividualValidationRecord where
  | skipped
  | validated (passed : Bool)
  | validation_error (e : String)
deriving DecidableEq

/-- The `validation_summary` dictionary of `validate_individual_documents`. -/
structure ValidationSummary where
  total_documents : Nat
  validated : Nat
  passed : Nat
  failed : Nat
  validation_rate : Rat
deriving DecidableEq

/-- Per-document summary assembled for the cross-document validation
prompt. -/
structure DocSummary where
  document_id : String
  document_type : String
  title : String
  key_topics : List (Option String)
deriving DecidableEq

/-- The `cross_validation_results` record: status plus the fields filled
in by the branch that produced it. -/
structure CrossValidationRecord where
  status : String
  reason : Option String
  documents_analyzed : Option Nat
  consistent : Option Bool
  consistency_score : Option Rat
deriving DecidableEq

/-- A recommendation entry of the requirements-validation data. -/
structure Recommendation where
  action : Option String
  priority : Option String
  timeline : Option String
deriving DecidableEq

/-- Requirements-validation payload: only the keys the consolidator
reads are carried; `compliance_risk_level` stands for the nested
`risk_assessment.compliance_risk_level` chain of `.get` reads. -/
structure RequirementsValidationData where
  recommendations : List Recommendation
  compliance_risk_level : Option String
  mitigation_required : Option Bool
deriving DecidableEq

/-- The `requirements_validation` record. -/
structure RequirementsValidationRecord where
  status : String
  validation_data : Option RequirementsValidationData
deriving DecidableEq

/-- Action item emitted by the consolidator. -/
structure ActionItem where
  action_id : String
  title : String
  priority : String
  timeline : String
deriving DecidableEq

/-- Executive summary emitted by the consolidator (the fields the claims
read). -/
structure ExecutiveSummary where
  project_type : String
  completion_status : String
  total_documents_generated : Nat
  total_files_created : Nat
  frameworks_addressed : List String
  overall_compliance_score : Rat
  risk_assessment : String
deriving DecidableEq

/-- The `ComplianceAgentState` fields the verified claims touch.
Frameworks are carried by their string value (`ComplianceFramework` is a
string-valued enum).  Collections that `ensure_state_initialization`
defaults to empty are always-present lists; `error_message` and
`retry_count` keep the optional shape their `.get`-with-default reads
have in the source.  Timestamps are omitted. -/
structure ComplianceAgentState where
  user_prompt : String
  deliverable_blueprint : List BlueprintItem
  identified_frameworks : List String
  project_type : Option String
  project_complexity : String
  estimated_duration : Option String
  required_documents : List DocRequirement
  document_plans : List DocumentPlan
  document_results : List (String × DocumentResult)
  document_status : List (String × DocumentStatus)
  parallel_execution : Bool
  status : AssessmentStatus
  current_stage : String
  error_message : Option String
  retry_count : Option Nat
  trace_data : List (String × TraceEntry)
  individual_validation_results : List (String × IndividualValidationRecord)
  validation_summary : Option ValidationSummary
  cross_validation_results : Option CrossValidationRecord
  requirements_validation : Option RequirementsValidationRecord
  document_urls : List String
  primary_document_url : Option String
  executive_summary : Option ExecutiveSummary
  action_items : List ActionItem
  messages : List String
deriving DecidableEq

/-- The `ensure_state_initialization` routine fills missing collections
with empty defaults and never touches `status`, `retry_count` or
`error_message`; with collections modelled as always-present it is the
identity. -/
def ensure_state_initialization (state : ComplianceAgentState) : ComplianceAgentState :=
  state

/-- The `add_trace_data` helper (timestamp omitted). -/
def add_trace_data (state : ComplianceAgentState) (stage : String) (entry : TraceEntry) :
    ComplianceAgentState :=
  { state with trace_data := dset state.trace_data stage entry }

/-- Centralized error handling of `compliance_workflow.py`
(`handle_node_error`): normalizes the state, records
`"<node> failed: <error>"`, increments the run-level retry counter
(missing counter reads as 0), stores a trace entry with the new count,
appends one log message carrying the new count, and returns the mutated
state. -/
def handle_node_error (state : ComplianceAgentState) (error : String) (node_name : String) :
    ComplianceAgentState :=
  let state1 := ensure_state_initialization state
  let rc := state1.retry_count.getD 0 + 1
  let state2 :=
    { state1 with
        error_message := some (node_name ++ " failed: " ++ error)
        retry_count := some rc }
  let state3 := add_trace_data state2 (node_name ++ "_error") { error := error, retry_count := rc }
  { state3 with
      messages := state3.messages ++ [Marketing.processingErrorMessage node_name rc] }

/-- Static description of a langgraph `StateGraph`: the nodes, the
unconditional edges, and the entry point. -/
structure StateGraphSpec where
  nodes : List String
  edges : List (String × String)
  entry_point : String
deriving DecidableEq

/-- The langgraph `END` sentinel. -/
def END_NODE : String := "__end__"

/-- The workflow graph built by `build_compliance_graph`: all edges are
added by plain `add_edge` calls, so routing never depends on the run
state. -/
def build_compliance_graph : StateGraphSpec :=
  { nodes := ["analyze_project", "plan_documents", "generate_documents", "generate_files",
      "validate_individual", "validate_consistency", "validate_requirements",
      "consolidate_results"]
    edges := [("analyze_project", "plan_documents"), ("plan_documents", "generate_documents"),
      ("generate_documents", "generate_files"), ("generate_files", "validate_individual"),
      ("validate_individual", "validate_consistency"),
      ("validate_consistency", "validate_requirements"),
      ("validate_requirements", "consolidate_results"), ("consolidate_results", END_NODE)]
    entry_point := "analyze_project" }

/-- Consecutive pairs of a node list, used to state that a whole pipeline
path is present among a graph's edges. -/
def chainedEdges : List String → List (String × String)
  | a :: b :: rest => (a, b) :: chainedEdges (b :: rest)
  | _ => []

/-- The full stage pipeline of the compliance graph, entry to END. -/
def compliance_pipeline : List String :=
  ["analyze_project", "plan_documents", "generate_documents", "generate_files",
   "validate_individual", "validate_consistency", "validate_requirements",
   "consolidate_results", END_NODE]

/-- The `_extract_target_audience` helper (identical in
`compliance_workflow.py` and `compliance_workflow_fixed.py`). -/
def extract_target_audience (description : String) : String :=
  let dl := description.toLower
  if str_contains dl "legal" || str_contains dl "counsel" then "legal"
  else if str_contains dl "technical" || str_contains dl "engineering" then "technical"
  else if str_contains dl "executive" || str_contains dl "c-suite" then "executive"
  else if str_contains dl "customer" || str_contains dl "public" then "end_users"
  else if str_contains dl "auditor" || str_contains dl "compliance" then "auditors"
  else "legal"

/-- Zero-padded decimal of Python's `f"{n:03d}"` format. -/
def format03d (n : Nat) : String :=
  let s := toString n
  if s.length < 3 then String.mk (List.replicate (3 - s.length) '0') ++ s else s

/-- Document id assigned by `create_document_plans` to the requirement at
position `i` (`f"doc_{i+1:03d}"`). -/
def doc_id_for (i : Nat) : String := "doc_" ++ format03d (i + 1)

/-- The document requirement built from the blueprint entry at position
`i` by the blueprint branch of `analyze_project_requirements`
(`compliance_workflow_fixed.py`); `frameworks_list` is the list of
detected framework values threaded in from the detection cascade. -/
def blueprintDocRequirement (frameworks_list : List String) (i : Nat)
    (blueprint_item : BlueprintItem) : DocRequirement :=
  { document_type := "deliverable_" ++ toString (i + 1)
    document_title := blueprint_item.title.getD ("Document " ++ toString (i + 1))
    priority := "critical"
    complexity := "high"
    estimated_effort := "high"
    dependencies := []
    frameworks_applicable := frameworks_list
    target_audience := extract_target_audience (blueprint_item.description.getD "")
    format_requirements := blueprint_item.format.getD "html"
    length_estimate := "comprehensive"
    special_requirements := blueprint_item.description.getD ""
    quality_requirements := blueprint_item.quality_requirements.getD []
    blueprint_specification := blueprint_item
    deliverable_index := i
    is_from_blueprint := true }

/-- Reply of the planning LLM call for one requirement inside
`create_document_plans`: an error-shaped reply triggers the fallback
plan. -/
inductive PlanningReply where
  | llm_error (e : String)
  | ok (payload : String)
deriving DecidableEq

/-- The empty blueprint dictionary. -/
def emptyBlueprint : BlueprintItem :=
  { title := none, format := none, description := none, quality_requirements := none }

/-- Default requirement created by `create_document_plans` when
`required_documents` is empty.  The source dictionary carries only
`document_type`, `document_title`, `priority` and `complexity`; the
remaining fields stand for keys absent from that dictionary and unread on
this path. -/
def default_doc_req : DocRequirement :=
  { document_type := "compliance_checklist"
    document_title := "Compliance Assessment"
    priority := "high"
    complexity := "medium"
    estimated_effort := ""
    dependencies := []
    frameworks_applicable := []
    target_audience := ""
    format_requirements := ""
    length_estimate := ""
    special_requirements := ""
    quality_requirements := []
    blueprint_specification := emptyBlueprint
    deliverable_index := 0
    is_from_blueprint := false }

/-- The `create_document_plans` stage of `compliance_workflow.py`:
exactly one plan per requirement, in order, with ids `doc_001`,
`doc_002`, ... — both the LLM-ok branch and the fallback branch append
one plan carrying the requirement, so the planner reply only affects the
execution-plan payload. -/
def create_document_plans (planner : Nat → DocRequirement → PlanningReply)
    (state : ComplianceAgentState) : ComplianceAgentState :=
  let state1 := { state with
    status := AssessmentStatus.PLANNING_DOCUMENTS, current_stage := "document_planning" }
  let required_documents :=
    if state.required_documents.isEmpty then [default_doc_req] else state.required_documents
  let document_plans := required_documents.enum.map (fun ir =>
    { document_id := doc_id_for ir.1
      document_requirement := ir.2
      execution_plan :=
        match planner ir.1 ir.2 with
        | .ok payload => ExecutionPlan.from_llm payload
        | .llm_error _ => ExecutionPlan.standard_fallback
      status := DocumentStatus.PENDING })
  { state1 with
      document_plans := document_plans
      document_status := document_plans.map (fun p => (p.document_id, DocumentStatus.PENDING))
      status := AssessmentStatus.GENERATING_DOCUMENTS
      messages := state1.messages ++
        ["Document planning complete: " ++ toString document_plans.length ++
          " detailed execution plans created."] }

/-- Reply of the generation LLM call for one document inside
`generate_single_document`. -/
inductive GenerationReply where
  | llm_error (e : String)
  | ok (content : GeneratedContent)
deriving DecidableEq

/-- The `generate_single_document` helper: both branches of its
catch-all try return a result dictionary keyed by the plan's document
id, so it never raises. -/
def generate_single_document (llm : String → GenerationReply) (plan : DocumentPlan) :
    DocumentResult :=
  match llm plan.document_id with
  | .ok c =>
    { document_id := plan.document_id, status := DocumentStatus.COMPLETED, success := true
      content := some c, error := none }
  | .llm_error e =>
    { document_id := plan.document_id, status := DocumentStatus.FAILED, success := false
      content := none, error := some e }

/-- Outcome of one generation task as observed by
`execute_document_generation` after `asyncio.gather(...,
return_exceptions=True)`: the task's returned result dictionary, or the
exception it raised, captured individually per task. -/
inductive TaskOutcome where
  | returned (r : DocumentResult)
  | raised (e : String)
deriving DecidableEq

/-- Failure record stored for a task that raised: keyed by the plan's
document id (`document_plans[i].get("document_id", ...)`; plans built by
`create_document_plans` always carry an id). -/
def failedTaskResult (p : DocumentPlan) (e : String) : DocumentResult :=
  { document_id := p.document_id, status := DocumentStatus.FAILED, success := false
    content := none, error := some e }

/-- Processing of one gathered result in the parallel branch: a captured
exception is recorded as a failure for that plan alone; a returned result
is stored under its own document id. -/
def processParallelResult (p : DocumentPlan) (t : TaskOutcome) : String × DocumentResult :=
  match t with
  | .raised e => (p.document_id, failedTaskResult p e)
  | .returned r => (r.document_id, r)

/-- Shared tail of `execute_document_generation`: store the results, move
the run status forward, and append the success-count message. -/
def finishGeneration (state : ComplianceAgentState)
    (document_results : List (String × DocumentResult)) : ComplianceAgentState :=
  let successful_docs := (document_results.filter (fun kv => kv.2.success)).length
  { state with
      document_results := document_results
      status := AssessmentStatus.CONSOLIDATING_RESULTS
      messages := state.messages ++
        ["Document generation complete: " ++ toString successful_docs ++ "/" ++
          toString state.document_plans.length ++ " documents generated successfully."] }

/-- Sequential branch of `execute_document_generation`: one document at a
time, setting `IN_PROGRESS` before the call; an exception raised here is
not captured per task and propagates to the stage handler. -/
def seqGeneration (run : DocumentPlan → TaskOutcome) :
    List DocumentPlan → List (String × DocumentStatus) → List (String × DocumentResult) →
    Except String (List (String × DocumentStatus) × List (String × DocumentResult))
  | [], st, res => .ok (st, res)
  | p :: rest, st, res =>
    let st1 := dset st p.document_id DocumentStatus.IN_PROGRESS
    match run p with
    | .raised e => .error e
    | .returned r =>
      seqGeneration run rest (dset st1 p.document_id r.status) (dset res p.document_id r)

/-- The `execute_document_generation` stage of `compliance_workflow.py`,
parameterized by the per-task outcome.  Raising (`.error`) models an
exception escaping to the stage-level handler. -/
def execute_document_generation (run : DocumentPlan → TaskOutcome)
    (state : ComplianceAgentState) : Except String ComplianceAgentState :=
  let state1 := { state with
    status := AssessmentStatus.GENERATING_DOCUMENTS, current_stage := "document_generation" }
  if state.document_plans.isEmpty then
    .error "No document plans available for execution"
  else if state.parallel_execution && decide (1 < state.document_plans.length) then
    let results := state.document_plans.map run
    let document_results :=
      (state.document_plans.zip results).foldl
        (fun acc pr => dset acc (processParallelResult pr.1 pr.2).1 (processParallelResult pr.1 pr.2).2)
        []
    .ok (finishGeneration state1 document_results)
  else do
    let final ← seqGeneration run state.document_plans state.document_status []
    .ok (finishGeneration { state1 with document_status := final.1 } final.2)

/-- Verdict of the validation LLM call for one document inside the
compliance `validate_individual_documents`: an error-shaped reply, or a
parsed result from which the stage reads `overall_validation.passed`. -/
inductive IndividualVerdict where
  | llm_error (e : String)
  | ok (passed : Bool)
deriving DecidableEq

/-- Record stored into `individual_validation_results` for one generation
result: skipped without content, else validated/validation-error per the
LLM reply. -/
def validationRecordFor (validate : String → IndividualVerdict) (kv : String × DocumentResult) :
    IndividualValidationRecord :=
  if !kv.2.success || kv.2.content.isNone then .skipped
  else
    match validate kv.1 with
    | .llm_error e => .validation_error e
    | .ok passed => .validated passed

/-- Whether a record has status `"validated"`. -/
def isValidatedRecord : IndividualValidationRecord → Bool
  | .validated _ => true
  | _ => false

/-- Whether a record has status `"validated"` with
`overall_validation.passed` true. -/
def isPassedRecord : IndividualValidationRecord → Bool
  | .validated passed => passed
  | _ => false

/-- The compliance `validate_individual_documents` stage: with no results
it returns early (no summary); otherwise it validates each generation
result (keys of the `document_results` dict are unique, so the
per-key dict assignments amount to a map in iteration order) and stores
the summary, whose `validation_rate` divides the passed count by the
number of all generation results. -/
def validate_individual_documents (validate : String → IndividualVerdict)
    (state : ComplianceAgentState) : ComplianceAgentState :=
  let state1 := { state with current_stage := "individual_validation" }
  if state.document_results.isEmpty then state1
  else
    let validation_results :=
      state.document_results.map (fun kv => (kv.1, validationRecordFor validate kv))
    let total_validated := (validation_results.filter (fun kv => isValidatedRecord kv.2)).length
    let total_passed := (validation_results.filter (fun kv => isPassedRecord kv.2)).length
    let summary : ValidationSummary :=
      { total_documents := state.document_results.length
        validated := total_validated
        passed := total_passed
        failed := total_validated - total_passed
        validation_rate :=
          if state.document_results.isEmpty then 0
          else (total_passed : Rat) / (state.document_results.length : Rat) }
    { state1 with
        individual_validation_results := validation_results
        validation_summary := some summary
        messages := state1.messages ++
          ["Individual validation complete: " ++ toString total_passed ++ "/" ++
            toString state.document_results.length ++ " documents passed validation."] }

/-- A Python subscript `d[k]`: raises (KeyError / IndexError, carried as
the error string) when the key is missing. -/
def pygetitem {α : Type} (o : Option α) (err : String) : Except String α :=
  match o with
  | some v => .ok v
  | none => .error err

/-- Reply of the cross-validation LLM call. -/
inductive CrossValidationReply where
  | llm_error (e : String)
  | ok (consistent : Bool) (consistency_score : Rat)
deriving DecidableEq

/-- Summary entry built for one generation result inside
`validate_cross_document_consistency`; only successful results with a
content key contribute.  The guarded `doc_result["content"]` subscript is
kept explicit. -/
def buildDocSummary (kv : String × DocumentResult) : Except String (Option DocSummary) :=
  if kv.2.success && kv.2.content.isSome then do
    let content ← pygetitem kv.2.content "KeyError: content"
    let md := content.document_metadata.getD { document_type := none, title := none }
    .ok (some
      { document_id := kv.1
        document_type := md.document_type.getD "unknown"
        title := md.title.getD "Untitled"
        key_topics :=
          ((content.document_content.getD { main_sections := [] }).main_sections.take 3).map
            (fun s => s.section_title) })
  else .ok none

/-- Summaries for all generation results, in dict order. -/
def buildDocSummaries : List (String × DocumentResult) → Except String (List DocSummary)
  | [] => .ok []
  | kv :: rest => do
    let h ← buildDocSummary kv
    let t ← buildDocSummaries rest
    match h with
    | some s => .ok (s :: t)
    | none => .ok t

/-- The compliance `validate_cross_document_consistency` stage: skipped
(status `"skipped"`) when `len(document_results) < 2` — the guard counts
every generation result, not the completed ones — else it assembles the
summaries and stores the LLM verdict (status `"completed"` or
`"error"`). -/
def validate_cross_document_consistency (llm : CrossValidationReply)
    (state : ComplianceAgentState) : Except String ComplianceAgentState :=
  let state1 := { state with current_stage := "cross_validation" }
  if state.document_results.length < 2 then
    .ok { state1 with
        cross_validation_results := some
          { status := "skipped", reason := some "Insufficient documents for cross-validation"
            documents_analyzed := none, consistent := none, consistency_score := none } }
  else do
    let doc_summaries ← buildDocSummaries state.document_results
    match llm with
    | .ok consistent score =>
      .ok { state1 with
          cross_validation_results := some
            { status := "completed", reason := none
              documents_analyzed := some doc_summaries.length
              consistent := some consistent, consistency_score := some score }
          messages := state1.messages ++ ["Cross-validation complete."] }
    | .llm_error e =>
      .ok { state1 with
          cross_validation_results := some
            { status := "error", reason := some e, documents_analyzed := none
              consistent := none, consistency_score := none } }

/-- The five default action items of the consolidator. -/
def default_action_items : List ActionItem :=
  [{ action_id := "action_001", title := "Review and approve generated compliance documents"
     priority := "critical", timeline := "immediate" },
   { action_id := "action_002", title := "Distribute documents to relevant stakeholders"
     priority := "high", timeline := "short_term" },
   { action_id := "action_003", title := "Implement recommended compliance measures"
     priority := "high", timeline := "short_term" },
   { action_id := "action_004", title := "Schedule compliance training based on materials"
     priority := "medium", timeline := "medium_term" },
   { action_id := "action_005", title := "Plan follow-up compliance audit"
     priority := "long_term" , timeline := "long_term" }]

/-- The `consolidate_project_results` stage, reduced to the outputs the
claims read: counts, the executive summary with the compliance score
(`validation_rate * 100`), the action items (recommendations if present,
else the defaults), and the guarded `document_urls[0]` read.  Raising
(`.error`) would model an exception escaping to the stage handler. -/
def consolidate_project_results (state : ComplianceAgentState) :
    Except String ComplianceAgentState := do
  let state1 := { state with
    status := AssessmentStatus.CONSOLIDATING_RESULTS, current_stage := "result_consolidation" }
  let document_results := state.document_results
  let successful_docs : Nat := (document_results.filter (fun kv => kv.2.success)).length
  let total_docs : Nat := document_results.length
  let files_generated : Nat := state.document_urls.length
  let validation_rate :=
    match state.validation_summary with
    | some vs => vs.validation_rate
    | none => 0
  let compliance_score := validation_rate * 100
  let risk_level :=
    match state.requirements_validation with
    | some rv => ((rv.validation_data.map (fun d => d.compliance_risk_level.getD "unknown")).getD "unknown")
    | none => "unknown"
  let executive_summary : ExecutiveSummary :=
    { project_type := state.project_type.getD "compliance_assessment"
      completion_status :=
        if successful_docs == total_docs then "completed" else "partially_completed"
      total_documents_generated := successful_docs
      total_files_created := files_generated
      frameworks_addressed := state.identified_frameworks
      overall_compliance_score := compliance_score
      risk_assessment := risk_level }
  let action_items :=
    match state.requirements_validation with
    | some rv =>
      match rv.validation_data with
      | some vd =>
        if vd.recommendations.isEmpty then default_action_items
        else
          (vd.recommendations.take 5).enum.map (fun ir =>
            { action_id := "action_" ++ format03d (ir.1 + 1)
              title := ir.2.action.getD "Action required"
              priority := ir.2.priority.getD "medium"
              timeline := ir.2.timeline.getD "short_term" })
      | none => default_action_items
    | none => default_action_items
  let primary_document_url ←
    if state.document_urls.isEmpty then pure none
    else do
      let u ← pygetitem state.document_urls.head? "IndexError: list index out of range"
      pure (some u)
  .ok { state1 with
      executive_summary := some executive_summary
      action_items := action_items
      primary_document_url := primary_document_url
      status := AssessmentStatus.COMPLETED
      current_stage := "completed"
      messages := state1.messages ++ ["Project Complete"] }

end CW

namespace CWF

/-- The blueprint branch of `analyze_project_requirements` in
`compliance_workflow_fixed.py`: raises on a blank prompt, else converts
each blueprint entry, in order, into one document requirement carrying
the entry (`blueprint_specification`) and its position
(`deliverable_index`).  `identified_frameworks` is the outcome of the
framework-detection cascade (brief, prompt keywords, project plan,
geography/industry inference, GDPR fallback), which no claim depends on;
`fallback_analysis` stands for the LLM-driven branch taken when no
blueprint is supplied. -/
def analyze_project_requirements (identified_frameworks : List String)
    (fallback_analysis : CW.ComplianceAgentState → CW.ComplianceAgentState)
    (state : CW.ComplianceAgentState) : Except String CW.ComplianceAgentState :=
  let state1 := { state with
    status := CW.AssessmentStatus.ANALYZING_PROJECT, current_stage := "project_analysis" }
  if py_strip state.user_prompt = "" then .error "User prompt cannot be empty"
  else if !state.deliverable_blueprint.isEmpty then
    let required_documents := state.deliverable_blueprint.enum.map
      (fun ib => CW.blueprintDocRequirement identified_frameworks ib.1 ib.2)
    .ok { state1 with
        project_type := some "multi_document_pack"
        identified_frameworks := identified_frameworks
        project_complexity := "very_high"
        estimated_duration := some "3-6 months"
        parallel_execution := decide (3 < required_documents.length)
        required_documents := required_documents
        status := CW.AssessmentStatus.PLANNING_DOCUMENTS
        messages := state1.messages ++
          ["Project analysis complete using content-orchestrator blueprint: " ++
            toString required_documents.length ++ " specialized deliverables identified."] }
  else .ok (fallback_analysis state1)

end CWF

namespace PySrc

/-- Lines 475-545 of src/src/compliance_workflow.py, verbatim: the `create_document_plans` function from its `async def` line (a top-level statement, hence at code level) through the free-standing block that follows the two f-string branches. -/
def create_document_plans_src : List String := [
  "async def create_document_plans(state: ComplianceAgentState) -> ComplianceAgentState:",
  "    \"\"\"Create detailed execution plans for each required document\"\"\"",
  "    ",
  "    try:",
  "        logger.info(\"Creating detailed document execution plans\")",
  "        ",
  "        # Ensure state is properly initialized",
  "        state = ensure_state_initialization(state)",
  "        ",
  "        state[\"status\"] = AssessmentStatus.PLANNING_DOCUMENTS",
  "        state[\"current_stage\"] = \"document_planning\"",
  "        state[\"updated_at\"] = datetime.utcnow()",
  "        ",
  "        required_documents = state.get(\"required_documents\", [])",
  "        project_type = state.get(\"project_type\")",
  "        frameworks = state.get(\"identified_frameworks\", [])",
  "        ",
  "        if not required_documents:",
  "            # Create a default document if none specified",
  "            required_documents = [\x7b",
  "                \"document_type\": \"compliance_checklist\",",
  "                \"document_title\": \"Compliance Assessment\",",
  "                \"priority\": \"high\",",
  "                \"complexity\": \"medium\"",
  "            \x7d]",
  "        ",
  "        llm = llm_manager.get_standard_llm()",
  "        ",
  "        document_plans = []",
  "        ",
  "        for i, doc_req in enumerate(required_documents):",
  "            # Create detailed plan for each document",
  "            # Special handling for blueprint-based documents",
  "            if doc_req.get(\x27is_from_blueprint\x27):",
  "                blueprint_spec = doc_req.get(\x27blueprint_specification\x27, \x7b\x7d)",
  "                planning_prompt = f\"\"\"",
  "                You are a compliance document specialist. Create a detailed execution plan for this SPECIFIC deliverable from the project blueprint.",
  "",
  "                DELIVERABLE SPECIFICATION:",
  "                Title: \x7bdoc_req.get(\x27document_title\x27)\x7d",
  "                Format: \x7bdoc_req.get(\x27format_requirements\x27)\x7d",
  "                Description: \x7bdoc_req.get(\x27special_requirements\x27)\x7d",
  "                Quality Requirements: \x7bjson.dumps(doc_req.get(\x27quality_requirements\x27, []), indent=2)\x7d",
  "                ",
  "                ORIGINAL BLUEPRINT:",
  "                \x7bjson.dumps(blueprint_spec, indent=2)\x7d",
  "                ",
  "                PROJECT CONTEXT:",
  "                - This is deliverable \x7bdoc_req.get(\x27deliverable_index\x27, 0) + 1\x7d of \x7blen(required_documents)\x7d total deliverables",
  "                - Project Type: \x7bproject_type.value if project_type else \x27Unknown\x27\x7d",
  "                - Frameworks: \x7b\x27, \x27.join([f.value.upper() for f in frameworks])\x7d",
  "                - Industry: \x7bstate.get(\x27industry_sector\x27, \x27Not specified\x27)\x7d",
  "                - Organization Size: \x7bstate.get(\x27organization_size\x27, \x27Not specified\x27)\x7d",
  "                - Geographic Scope: \x7b\x27, \x27.join(state.get(\x27geographic_scope\x27, []))\x7d\"\"\"",
  "            else:",
  "                planning_prompt = f\"\"\"",
  "                You are a compliance document specialist. Create a detailed execution plan for the following document requirement.",
  "",
  "                DOCUMENT REQUIREMENT:",
  "                \x7bjson.dumps(doc_req, indent=2)\x7d",
  "                ",
  "                PROJECT CONTEXT:",
  "                - Project Type: \x7bproject_type.value if project_type else \x27Unknown\x27\x7d",
  "                - Frameworks: \x7b\x27, \x27.join([f.value.upper() for f in frameworks])\x7d",
  "                - Industry: \x7bstate.get(\x27industry_sector\x27, \x27Not specified\x27)\x7d",
  "                - Organization Size: \x7bstate.get(\x27organization_size\x27, \x27Not specified\x27)\x7d",
  "                - Geographic Scope: \x7b\x27, \x27.join(state.get(\x27geographic_scope\x27, []))\x7d\"\"\"",
  "            ",
  "            USER CONTEXT (for personalization):",
  "            - User Responses: \x7bjson.dumps(state.get(\x27user_responses\x27, \x7b\x7d), indent=2) if state.get(\x27user_responses\x27) else \x27No user responses available\x27\x7d",
  "            - Project Brief: \x7bjson.dumps(state.get(\x27project_brief\x27, \x7b\x7d), indent=2) if state.get(\x27project_brief\x27) else \x27No enhanced project brief available\x27\x7d"]

/-- Lines 632-681 of src/src/compliance_workflow.py, verbatim: the `generate_single_document` function from its `async def` line through the free-standing block that follows the two f-string branches. -/
def generate_single_document_src : List String := [
  "async def generate_single_document(document_plan: Dict[str, Any], context: Dict[str, Any]) -> Dict[str, Any]:",
  "    \"\"\"Generate a single document based on its execution plan\"\"\"",
  "    ",
  "    document_id = document_plan.get(\"document_id\")",
  "    doc_req = document_plan.get(\"document_requirement\", \x7b\x7d)",
  "    exec_plan = document_plan.get(\"execution_plan\", \x7b\x7d)",
  "    ",
  "    try:",
  "        logger.info(f\"Generating document: \x7bdocument_id\x7d - \x7bdoc_req.get(\x27document_title\x27, \x27Untitled\x27)\x7d\")",
  "        ",
  "        llm = llm_manager.get_standard_llm()",
  "        ",
  "        # Special handling for blueprint-based documents",
  "        if doc_req.get(\x27is_from_blueprint\x27):",
  "            blueprint_spec = doc_req.get(\x27blueprint_specification\x27, \x7b\x7d)",
  "            ",
  "            # Enhanced document generation prompt for blueprint deliverables",
  "            generation_prompt = f\"\"\"",
  "            You are a compliance document specialist. Generate the EXACT deliverable specified in the blueprint.",
  "",
  "            DELIVERABLE TITLE: \x7bdoc_req.get(\x27document_title\x27)\x7d",
  "            ",
  "            BLUEPRINT SPECIFICATION:",
  "            \x7bjson.dumps(blueprint_spec, indent=2)\x7d",
  "            ",
  "            EXECUTION PLAN:",
  "            \x7bjson.dumps(exec_plan, indent=2)\x7d",
  "            ",
  "            PROJECT CONTEXT:",
  "            \x7bjson.dumps(context, indent=2)\x7d",
  "            ",
  "            CRITICAL: This is one of multiple specific deliverables requested. Generate ONLY this specific document,",
  "            focusing entirely on the requirements in the blueprint specification above.\"\"\"",
  "        else:",
  "            # Standard document generation prompt",
  "            generation_prompt = f\"\"\"",
  "            You are a compliance document specialist. Generate a high-quality compliance document based on the detailed execution plan.",
  "",
  "            DOCUMENT REQUIREMENT:",
  "            \x7bjson.dumps(doc_req, indent=2)\x7d",
  "            ",
  "            EXECUTION PLAN:",
  "            \x7bjson.dumps(exec_plan, indent=2)\x7d",
  "            ",
  "            PROJECT CONTEXT:",
  "            \x7bjson.dumps(context, indent=2)\x7d\"\"\"",
  "        ",
  "        Generate the complete document content in JSON format:",
  "        \x7b\x7b",
  "            \"document_metadata\": \x7b\x7b"]

/-- Counting of `\x22\x22\x22` triple-quote occurrences in a line, scanning
left to right (CPython tokenizes triple-quoted string delimiters the same
way in this file: every occurrence in the embedded regions is a real
delimiter, none is nested in a single-quoted string). -/
def count_triple_quote : List Char → Nat
  | '\x22' :: '\x22' :: '\x22' :: rest => count_triple_quote rest + 1
  | _ :: rest => count_triple_quote rest
  | [] => 0

/-- Whether a prefix of the file region ends inside a triple-quoted
string: the running parity of triple-quote delimiters, starting at code
level (the region starts at a top-level `async def` statement). -/
def tq_parity (lines : List String) : Bool :=
  lines.foldl (fun b l => xor b (decide (count_triple_quote l.data % 2 = 1))) false

/-- Characters allowed in a Python NAME token. -/
def is_py_name_char (c : Char) : Bool := c.isAlphanum || c = '_'

/-- Python keywords plus the soft keywords (`match`, `case`, `type`): the
only identifiers after which another bare NAME may legally follow at the
start of a statement. -/
def py_keywords : List String :=
  ["False", "None", "True", "and", "as", "assert", "async", "await", "break", "class",
   "continue", "def", "del", "elif", "else", "except", "finally", "for", "from", "global",
   "if", "import", "in", "is", "lambda", "nonlocal", "not", "or", "pass", "raise",
   "return", "try", "while", "with", "yield", "match", "case", "type"]

/-- Whether a string is a bare (non-keyword) Python NAME token. -/
def is_bare_py_name (s : String) : Bool :=
  !s.isEmpty && s.data.all is_py_name_char && !(s.data.headD '0').isDigit &&
    !py_keywords.contains s

/-- Whether a line starts (after indentation) with two juxtaposed bare
NAME tokens — a sequence no Python statement or expression may begin
with, so such a line at code level is a SyntaxError. -/
def begins_with_juxtaposed_names (s : String) : Bool :=
  let cs := (py_strip s).data
  let t1 := cs.takeWhile (fun c => c ≠ ' ')
  let rest := (cs.dropWhile (fun c => c ≠ ' ')).dropWhile (fun c => c = ' ')
  let t2 := rest.takeWhile (fun c => c ≠ ' ')
  is_bare_py_name (String.mk t1) && is_bare_py_name (String.mk t2)

/-- The free-standing line at source line 543 (index 68 of the embedded
region). -/
def user_context_line : String := "            USER CONTEXT (for personalization):"

/-- The free-standing line at source line 679 (index 47 of the embedded
region). -/
def generate_content_line : String :=
  "        Generate the complete document content in JSON format:"

end PySrc

namespace Marketing

/-- Acyclicity of a dependency map, witnessed by a ranking: every
dependency has a strictly smaller rank than its dependent.  A finite
dependency graph is cycle-free exactly when such a ranking exists. -/
def RankedAcyclic (deps : List (String × List String)) (rank : String → Nat) : Prop :=
  ∀ id d, d ∈ depsOf deps id → rank d < rank id

/-- Dependencies reference only ids of planned documents (the invariant
the spec states for work-item dependency sets). -/
def ClosedDeps (deps : List (String × List String)) (plans : List DocPlan) : Prop :=
  ∀ p ∈ plans, ∀ d ∈ depsOf deps p.document_id, ∃ q ∈ plans, q.document_id = d

/-- Ids blocked by the `A → B → A` dependency cycle: the two cyclic ids
themselves and every id depending transitively on one of them. -/
inductive Stuck (deps : List (String × List String)) (A B : String) : String → Prop
  | isA : Stuck deps A B A
  | isB : Stuck deps A B B
  | dep (x d : String) : d ∈ depsOf deps x → Stuck deps A B d → Stuck deps A B x

/-- An entry of `document_contents` on which the individual-validation
loop reaches the branch evaluating `DocumentStatus.VALIDATED`: the
document is in REVIEWING status, has a plan, its validation reply parsed,
and it passes (or fails with no critical issue). -/
def PassesIndividualValidation (validate : String → ValidationOutcome)
    (state : MarketingDocumentState) (kv : String × DocContent) : Prop :=
  dget state.document_status kv.1 = some DocumentStatus.REVIEWING ∧
  (state.document_plans.find? (fun p => decide (p.document_id = kv.1))).isSome = true ∧
  (validate kv.1).has_error = false ∧
  ((validate kv.1).overall_pass = true ∨ (validate kv.1).has_critical_issue = false)

/-- Example marketing state: two planned documents, `doc_002` depending
on `doc_001`, both pending. -/
def chainState : MarketingDocumentState :=
  { document_plans := [{ document_id := "doc_001" }, { document_id := "doc_002" }]
    document_dependencies := [("doc_002", ["doc_001"])]
    document_contents := []
    document_status := [("doc_001", .PENDING), ("doc_002", .PENDING)]
    validation_results := []
    quality_scores := []
    status := "initiated"
    current_stage := ""
    error_message := none
    retry_count := none
    messages := [] }

/-- Generation-client behaviour that fails exactly `doc_001`. -/
def failDoc1Gen : String → GenOutcome := fun id =>
  if id = "doc_001" then .failure "generation failed" else .success "content"

/-- Example marketing state with the cyclic dependencies
`doc_001 → doc_002 → doc_001`, both pending. -/
def cycleState : MarketingDocumentState :=
  { chainState with
      document_dependencies := [("doc_001", ["doc_002"]), ("doc_002", ["doc_001"])] }

/-- Generation-client behaviour that always succeeds. -/
def alwaysOkGen : String → GenOutcome := fun _ => .success "content"

/-- Example marketing state for the validation stage: one generated
document awaiting review. -/
def reviewingState : MarketingDocumentState :=
  { chainState with
      document_plans := [{ document_id := "doc_001" }]
      document_dependencies := []
      document_contents := [("doc_001", .generated "content")]
      document_status := [("doc_001", .REVIEWING)] }

/-- Validation reply that parses and passes. -/
def passingValidation : String → ValidationOutcome := fun _ =>
  { has_error := false, overall_pass := true, quality_score := 9 / 10
    has_critical_issue := false }

end Marketing

namespace CW

/-- Result dictionary stored by `execute_document_generation` keyed by
`perItemResult`: the per-task projection the parallel branch applies to
each gathered outcome, independent of every sibling. -/
def perItemResult (p : DocumentPlan) (t : TaskOutcome) : DocumentResult :=
  match t with
  | .raised e => failedTaskResult p e
  | .returned r => r

/-- Specification-side count of attempted items: every generation result,
the failed ones included. -/
def spec_items_attempted (state : ComplianceAgentState) : Nat :=
  state.document_results.length

/-- Specification-side test that one generation result individually
passed validation. -/
def individually_passed (validate : String → IndividualVerdict)
    (kv : String × DocumentResult) : Bool :=
  kv.2.success && kv.2.content.isSome &&
    (match validate kv.1 with
     | .ok true => true
     | _ => false)

/-- Specification-side count of individually passed items. -/
def spec_items_passed (validate : String → IndividualVerdict)
    (state : ComplianceAgentState) : Nat :=
  (state.document_results.filter (individually_passed validate)).length

/-- Baseline compliance state with every collection empty. -/
def baseState : ComplianceAgentState :=
  { user_prompt := "Create GDPR compliance documents"
    deliverable_blueprint := []
    identified_frameworks := []
    project_type := none
    project_complexity := ""
    estimated_duration := none
    required_documents := []
    document_plans := []
    document_results := []
    document_status := []
    parallel_execution := false
    status := AssessmentStatus.INITIATED
    current_stage := ""
    error_message := none
    retry_count := none
    trace_data := []
    individual_validation_results := []
    validation_summary := none
    cross_validation_results := none
    requirements_validation := none
    document_urls := []
    primary_document_url := none
    executive_summary := none
    action_items := []
    messages := [] }

/-- Generated content with every optional key absent (empty content). -/
def emptyContent : GeneratedContent :=
  { document_metadata := none, document_content := none }

/-- A completed generation result with empty content. -/
def okResult (id : String) : DocumentResult :=
  { document_id := id, status := DocumentStatus.COMPLETED, success := true
    content := some emptyContent, error := none }

/-- A failed generation result. -/
def failResult (id : String) : DocumentResult :=
  { document_id := id, status := DocumentStatus.FAILED, success := false
    content := none, error := some "generation failed" }

/-- Compliance state with one completed and one failed generation result
out of two attempted. -/
def mixedResultsState : ComplianceAgentState :=
  { baseState with
      document_results := [("doc_001", okResult "doc_001"), ("doc_002", failResult "doc_002")] }

/-- Compliance state with exactly two completed results whose content is
empty. -/
def twoCompletedState : ComplianceAgentState :=
  { baseState with
      document_results := [("doc_001", okResult "doc_001"), ("doc_002", okResult "doc_002")] }

/-- Validation reply that parses and passes every document. -/
def allPassVerdict : String → IndividualVerdict := fun _ => .ok true

/-- A cross-validation reply that parses as consistent. -/
def okCrossReply : CrossValidationReply := .ok true (85 : Rat)

/-- Example plan for parallel generation. -/
def examplePlan (id : String) : DocumentPlan :=
  { document_id := id
    document_requirement := default_doc_req
    execution_plan := ExecutionPlan.standard_fallback
    status := DocumentStatus.PENDING }

/-- Compliance state ready for parallel generation of two documents. -/
def parallelState : ComplianceAgentState :=
  { baseState with
      document_plans := [examplePlan "doc_001", examplePlan "doc_002"]
      parallel_execution := true }

/-- Task outcomes where `doc_002` alone raises. -/
def doc2RaisesRun : DocumentPlan → TaskOutcome := fun p =>
  if p.document_id = "doc_002" then .raised "boom"
  else .returned (okResult p.document_id)

/-- Blueprint of the specification scenario: a privacy policy in HTML
and a ROPA register in XLSX. -/
def scenarioBlueprint : List BlueprintItem :=
  [{ title := some "Privacy Policy", format := some "html"
     description := none, quality_requirements := none },
   { title := some "ROPA Register", format := some "xlsx"
     description := none, quality_requirements := none }]

/-- Compliance request state carrying the scenario blueprint. -/
def blueprintState : ComplianceAgentState :=
  { baseState with deliverable_blueprint := scenarioBlueprint }

end CW

theorem dget_dset_self {α : Type} (m : List (String × α)) (k : String) (v : α) :
    dget (dset m k v) k = some v := by
  induction m with
  | nil => simp [dget, dset]
  | cons kv rest ih =>
    by_cases h : kv.1 = k
    · simp [dget, dset, h]
    · simp [dget, dset, h, ih]

theorem dget_dset_ne {α : Type} (m : List (String × α)) (k k2 : String) (v : α)
    (h : k ≠ k2) : dget (dset m k v) k2 = dget m k2 := by
  induction m with
  | nil => simp [dget, dset, h]
  | cons kv rest ih =>
    by_cases hk : kv.1 = k
    · simp [dget, dset, hk, h]
    · simp only [dset, if_neg hk]
      by_cases hk2 : kv.1 = k2
      · simp [dget, hk2]
      · simp [dget, hk2, ih]

theorem dset_append_of_ne {α : Type} (m : List (String × α)) (k : String) (v : α)
    (h : ∀ kv ∈ m, kv.1 ≠ k) : dset m k v = m ++ [(k, v)] := by
  induction m with
  | nil => simp [dset]
  | cons kv rest ih =>
    have hk : kv.1 ≠ k := h kv (by simp)
    simp only [dset, if_neg hk, List.cons_append, List.cons.injEq, true_and]
    exact ih (fun kv2 hkv2 => h kv2 (by simp [hkv2]))

theorem foldl_dset_eq_append {α : Type} :
    ∀ (kvs m : List (String × α)),
      (kvs.map Prod.fst).Nodup → (∀ kv ∈ kvs, ∀ kv2 ∈ m, kv2.1 ≠ kv.1) →
      kvs.foldl (fun acc kv => dset acc kv.1 kv.2) m = m ++ kvs := by
  intro kvs
  induction kvs with
  | nil => intro m _ _; simp
  | cons kv rest ih =>
    intro m hnd hdisj
    have hstep : dset m kv.1 kv.2 = m ++ [kv] :=
      dset_append_of_ne m kv.1 kv.2 (fun kv2 hkv2 => hdisj kv (by simp) kv2 hkv2)
    have hnd2 : (rest.map Prod.fst).Nodup := (List.nodup_cons.mp hnd).2
    have hdisj2 : ∀ kv2 ∈ rest, ∀ kv3 ∈ m ++ [kv], kv3.1 ≠ kv2.1 := by
      intro kv2 hkv2 kv3 hkv3
      rcases List.mem_append.mp hkv3 with h3 | h3
      · exact hdisj kv2 (by simp [hkv2]) kv3 h3
      · have hkv3 : kv3 = kv := by simpa using h3
        have hne : kv.1 ∉ rest.map Prod.fst := (List.nodup_cons.mp hnd).1
        rw [hkv3]
        intro heq
        exact hne (by rw [heq]; exact List.mem_map_of_mem Prod.fst hkv2)
    calc (kv :: rest).foldl (fun acc kv => dset acc kv.1 kv.2) m
        = rest.foldl (fun acc kv => dset acc kv.1 kv.2) (m ++ [kv]) := by
          simp [List.foldl_cons, hstep]
      _ = (m ++ [kv]) ++ rest := ih (m ++ [kv]) hnd2 hdisj2
      _ = m ++ kv :: rest := by simp

theorem dget_map_key {α β : Type} (f : β → String) (g : β → α) :
    ∀ (l : List β) (p : β), (l.map f).Nodup → p ∈ l →
      dget (l.map fun q => (f q, g q)) (f p) = some (g p) := by
  intro l
  induction l with
  | nil => intro p _ hp; cases hp
  | cons q rest ih =>
    intro p hnd hp
    rcases List.mem_cons.mp hp with h | h
    · subst h; simp [dget]
    · have hq : f q ≠ f p := by
        intro heq
        exact (List.nodup_cons.mp hnd).1 (heq ▸ List.mem_map_of_mem f h)
      simp only [List.map_cons, dget, if_neg hq]
      exact ih p (List.nodup_cons.mp hnd).2 h

theorem list_exists_min_image {α : Type} (f : α → Nat) :
    ∀ (l : List α), l ≠ [] → ∃ a ∈ l, ∀ b ∈ l, f a ≤ f b := by
  intro l
  induction l with
  | nil => intro h; exact absurd rfl h
  | cons x rest ih =>
    intro _
    rcases List.eq_nil_or_concat rest with hr | _
    · subst hr
      exact ⟨x, by simp, by intro b hb; simp at hb; simp [hb]⟩
    · by_cases hrest : rest = []
      · subst hrest
        exact ⟨x, by simp, by intro b hb; simp at hb; simp [hb]⟩
      · obtain ⟨a, ha, hmin⟩ := ih hrest
        by_cases hxa : f x ≤ f a
        · refine ⟨x, by simp, ?_⟩
          intro b hb
          rcases List.mem_cons.mp hb with h | h
          · simp [h]
          · exact le_trans hxa (hmin b h)
        · refine ⟨a, by simp [ha], ?_⟩
          intro b hb
          rcases List.mem_cons.mp hb with h | h
          · subst h; omega
          · exact hmin b h

theorem list_zip_map_self {β γ : Type} (g : β → γ) :
    ∀ l : List β, l.zip (l.map g) = l.map fun a => (a, g a) := by
  intro l
  induction l with
  | nil => rfl
  | cons x rest ih => simp [List.zip_cons_cons, ih]

theorem processDoc_pending (gen : String → Marketing.GenOutcome) (s : Marketing.GenLoopState)
    (p : Marketing.DocPlan) :
    (Marketing.processDoc gen s p).pending
      = s.pending.filter (fun d => decide (d.document_id ≠ p.document_id)) := by
  cases hg : gen p.document_id <;> simp [Marketing.processDoc, hg]

theorem mem_processBatch_pending (gen : String → Marketing.GenOutcome)
    (batch : List Marketing.DocPlan) :
    ∀ (s : Marketing.GenLoopState) (d : Marketing.DocPlan),
      d ∈ (Marketing.processBatch gen s batch).pending ↔
        d ∈ s.pending ∧ ∀ p ∈ batch, d.document_id ≠ p.document_id := by
  induction batch with
  | nil => intro s d; simp [Marketing.processBatch]
  | cons p t ih =>
    intro s d
    have h1 : Marketing.processBatch gen s (p :: t)
        = Marketing.processBatch gen (Marketing.processDoc gen s p) t := rfl
    rw [h1, ih]
    rw [processDoc_pending]
    simp only [List.mem_filter, decide_eq_true_eq, List.forall_mem_cons]
    tauto

theorem mem_processBatch_generated (gen : String → Marketing.GenOutcome)
    (batch : List Marketing.DocPlan) :
    ∀ (s : Marketing.GenLoopState) (id : String),
      id ∈ (Marketing.processBatch gen s batch).generated ↔
        id ∈ s.generated ∨
          ∃ p ∈ batch, p.document_id = id ∧
            ∃ c, gen p.document_id = Marketing.GenOutcome.success c := by
  induction batch with
  | nil => intro s id; simp [Marketing.processBatch]
  | cons p t ih =>
    intro s id
    have h1 : Marketing.processBatch gen s (p :: t)
        = Marketing.processBatch gen (Marketing.processDoc gen s p) t := rfl
    rw [h1, ih]
    simp only [List.exists_mem_cons_iff]
    cases hg : gen p.document_id with
    | success c =>
      simp only [Marketing.processDoc, hg, List.mem_append, List.mem_singleton,
        Marketing.GenOutcome.success.injEq, exists_eq]
      constructor
      · intro h; tauto
      · intro h; tauto
    | failure e =>
      simp only [Marketing.processDoc, hg]
      constructor
      · intro h; tauto
      · rintro (h | ⟨hpid, c, hc⟩ | h)
        · exact Or.inl h
        · exact absurd hc (by simp)
        · exact Or.inr h
    | raised e =>
      simp only [Marketing.processDoc, hg]
      constructor
      · intro h; tauto
      · rintro (h | ⟨hpid, c, hc⟩ | h)
        · exact Or.inl h
        · exact absurd hc (by simp)
        · exact Or.inr h

theorem dget_processBatch_not_mem (gen : String → Marketing.GenOutcome)
    (batch : List Marketing.DocPlan) :
    ∀ (s : Marketing.GenLoopState) (id : String),
      (∀ p ∈ batch, p.document_id ≠ id) →
      dget (Marketing.processBatch gen s batch).document_status id
          = dget s.document_status id ∧
        dget (Marketing.processBatch gen s batch).document_contents id
          = dget s.document_contents id := by
  induction batch with
  | nil => intro s id _; exact ⟨rfl, rfl⟩
  | cons p t ih =>
    intro s id h
    have hp : p.document_id ≠ id := h p (by simp)
    have h2 := ih (Marketing.processDoc gen s p) id (fun q hq => h q (by simp [hq]))
    refine ⟨h2.1.trans ?_, h2.2.trans ?_⟩ <;>
      cases hg : gen p.document_id <;>
        simp [Marketing.processDoc, hg, dget_dset_ne _ _ _ _ hp]

theorem dget_processBatch_status_success (gen : String → Marketing.GenOutcome)
    (batch : List Marketing.DocPlan) :
    ∀ (s : Marketing.GenLoopState) (id : String),
      (∀ p ∈ batch, ∃ c, gen p.document_id = Marketing.GenOutcome.success c) →
      (∃ p ∈ batch, p.document_id = id) →
      dget (Marketing.processBatch gen s batch).document_status id
        = some Marketing.DocumentStatus.REVIEWING := by
  induction batch with
  | nil => intro s id _ h; simp at h
  | cons p t ih =>
    intro s id hsucc hex
    have hstep : Marketing.processBatch gen s (p :: t)
        = Marketing.processBatch gen (Marketing.processDoc gen s p) t := rfl
    by_cases ht : ∃ q ∈ t, q.document_id = id
    · rw [hstep]
      exact ih (Marketing.processDoc gen s p) id (fun q hq => hsucc q (by simp [hq])) ht
    · obtain ⟨q, hq, hqid⟩ := hex
      rcases List.mem_cons.mp hq with hqp | hqt
      · subst hqp
        obtain ⟨c, hc⟩ := hsucc q (by simp)
        have hpres := (dget_processBatch_not_mem gen t (Marketing.processDoc gen s q) id
          (fun r hr heq => ht ⟨r, hr, heq⟩)).1
        have hwrite : dget (Marketing.processDoc gen s q).document_status id
            = some Marketing.DocumentStatus.REVIEWING := by
          simp only [Marketing.processDoc, hc]
          rw [← hqid]
          exact dget_dset_self _ _ _
        rw [hstep, hpres, hwrite]
      · exact absurd ⟨q, hqt, hqid⟩ ht

theorem processBatch_pending_sublist (gen : String → Marketing.GenOutcome)
    (batch : List Marketing.DocPlan) :
    ∀ s : Marketing.GenLoopState,
      (Marketing.processBatch gen s batch).pending.Sublist s.pending := by
  induction batch with
  | nil => intro s; exact List.Sublist.refl _
  | cons p t ih =>
    intro s
    have h1 : (Marketing.processDoc gen s p).pending.Sublist s.pending := by
      rw [processDoc_pending]; exact List.filter_sublist _
    exact (ih (Marketing.processDoc gen s p)).trans h1

theorem processBatch_pending_length_lt (gen : String → Marketing.GenOutcome)
    (deps : List (String × List String)) (s : Marketing.GenLoopState)
    (hne : Marketing.docsToGenerate deps s ≠ []) :
    (Marketing.processBatch gen s (Marketing.docsToGenerate deps s)).pending.length
      < s.pending.length := by
  obtain ⟨b, hb⟩ := List.exists_mem_of_ne_nil _ hne
  have hbp : b ∈ s.pending := List.mem_of_mem_filter hb
  have hsub := processBatch_pending_sublist gen (Marketing.docsToGenerate deps s) s
  have hle := hsub.length_le
  rcases Nat.lt_or_ge
      (Marketing.processBatch gen s (Marketing.docsToGenerate deps s)).pending.length
      s.pending.length with h | h
  · exact h
  · exfalso
    have heq : (Marketing.processBatch gen s (Marketing.docsToGenerate deps s)).pending
        = s.pending := hsub.eq_of_length (le_antisymm hle h)
    have hmem : b ∈ (Marketing.processBatch gen s (Marketing.docsToGenerate deps s)).pending := by
      rw [heq]; exact hbp
    exact ((mem_processBatch_pending gen _ s b).mp hmem).2 b hb rfl

theorem generationRounds_stable (gen : String → Marketing.GenOutcome)
    (deps : List (String × List String)) :
    ∀ (fuel : Nat) (s : Marketing.GenLoopState), s.pending.length ≤ fuel →
      Marketing.generationRounds gen deps (fuel + 1) s
        = Marketing.generationRounds gen deps fuel s := by
  intro fuel
  induction fuel with
  | zero =>
    intro s h
    have hnil : s.pending = [] := List.eq_nil_of_length_eq_zero (Nat.le_zero.mp h)
    simp [Marketing.generationRounds, hnil]
  | succ f ih =>
    intro s h
    cases hemp : s.pending.isEmpty with
    | true => simp [Marketing.generationRounds, hemp]
    | false =>
      cases hbatch : (Marketing.docsToGenerate deps s).isEmpty with
      | true => simp [Marketing.generationRounds, hemp, hbatch]
      | false =>
        have hne : Marketing.docsToGenerate deps s ≠ [] := by
          intro hx; rw [hx] at hbatch; simp at hbatch
        have hlt := processBatch_pending_length_lt gen deps s hne
        have hle2 : (Marketing.processBatch gen s
            (Marketing.docsToGenerate deps s)).pending.length ≤ f := by omega
        calc Marketing.generationRounds gen deps (f + 1 + 1) s
            = Marketing.generationRounds gen deps (f + 1)
                (Marketing.processBatch gen s (Marketing.docsToGenerate deps s)) := by
              simp [Marketing.generationRounds, hemp, hbatch]
          _ = Marketing.generationRounds gen deps f
                (Marketing.processBatch gen s (Marketing.docsToGenerate deps s)) :=
              ih _ hle2
          _ = Marketing.generationRounds gen deps (f + 1) s := by
              simp [Marketing.generationRounds, hemp, hbatch]

theorem generationRounds_stable_add (gen : String → Marketing.GenOutcome)
    (deps : List (String × List String)) (k : Nat) :
    ∀ (fuel : Nat) (s : Marketing.GenLoopState), s.pending.length ≤ fuel →
      Marketing.generationRounds gen deps (fuel + k) s
        = Marketing.generationRounds gen deps fuel s := by
  induction k with
  | zero => intro fuel s _; rfl
  | succ n ih =>
    intro fuel s h
    have h1 : fuel + (n + 1) = (fuel + n) + 1 := by omega
    rw [h1, generationRounds_stable gen deps (fuel + n) s (by omega), ih fuel s h]

theorem dget_generationRounds_not_mem (gen : String → Marketing.GenOutcome)
    (deps : List (String × List String)) :
    ∀ (fuel : Nat) (s : Marketing.GenLoopState) (id : String),
      (∀ q ∈ s.pending, q.document_id ≠ id) →
      dget (Marketing.generationRounds gen deps fuel s).document_status id
          = dget s.document_status id ∧
        dget (Marketing.generationRounds gen deps fuel s).document_contents id
          = dget s.document_contents id := by
  intro fuel
  induction fuel with
  | zero => intro s id _; exact ⟨rfl, rfl⟩
  | succ f ih =>
    intro s id h
    cases hemp : s.pending.isEmpty with
    | true => simp [Marketing.generationRounds, hemp]
    | false =>
      cases hbatch : (Marketing.docsToGenerate deps s).isEmpty with
      | true => simp [Marketing.generationRounds, hemp, hbatch]
      | false =>
        have hbsub : ∀ q ∈ Marketing.docsToGenerate deps s, q.document_id ≠ id :=
          fun q hq => h q (List.mem_of_mem_filter hq)
        have hb := dget_processBatch_not_mem gen (Marketing.docsToGenerate deps s) s id hbsub
        have hnext : ∀ q ∈ (Marketing.processBatch gen s
            (Marketing.docsToGenerate deps s)).pending, q.document_id ≠ id := by
          intro q hq
          exact h q ((mem_processBatch_pending gen _ s q).mp hq).1
        have hrec := ih (Marketing.processBatch gen s (Marketing.docsToGenerate deps s)) id hnext
        have hstep : Marketing.generationRounds gen deps (f + 1) s
            = Marketing.generationRounds gen deps f
                (Marketing.processBatch gen s (Marketing.docsToGenerate deps s)) := by
          simp [Marketing.generationRounds, hemp, hbatch]
        rw [hstep]
        exact ⟨hrec.1.trans hb.1, hrec.2.trans hb.2⟩

theorem generationRounds_completes (gen : String → Marketing.GenOutcome)
    (deps : List (String × List String)) (rank : String → Nat)
    (hacyc : Marketing.RankedAcyclic deps rank) :
    ∀ (fuel : Nat) (s : Marketing.GenLoopState), s.pending.length ≤ fuel →
      (∀ p ∈ s.pending, ∃ c, gen p.document_id = Marketing.GenOutcome.success c) →
      (∀ p ∈ s.pending, ∀ d ∈ Marketing.depsOf deps p.document_id,
          d ∈ s.generated ∨ ∃ q ∈ s.pending, q.document_id = d) →
      (Marketing.generationRounds gen deps fuel s).pending = [] ∧
        ∀ p ∈ s.pending,
          dget (Marketing.generationRounds gen deps fuel s).document_status p.document_id
            = some Marketing.DocumentStatus.REVIEWING := by
  intro fuel
  induction fuel with
  | zero =>
    intro s h _ _
    have hnil : s.pending = [] := List.eq_nil_of_length_eq_zero (Nat.le_zero.mp h)
    refine ⟨hnil, ?_⟩
    intro p hp
    rw [hnil] at hp
    cases hp
  | succ f ih =>
    intro s hlen hsucc hinv
    cases hemp : s.pending.isEmpty with
    | true =>
      have hnil : s.pending = [] := by
        cases hx : s.pending with
        | nil => rfl
        | cons a t => rw [hx] at hemp; simp at hemp
      have hid : Marketing.generationRounds gen deps (f + 1) s = s := by
        simp [Marketing.generationRounds, hemp]
      refine ⟨by rw [hid]; exact hnil, ?_⟩
      intro p hp
      rw [hnil] at hp
      cases hp
    | false =>
      have hpne : s.pending ≠ [] := by
        intro hx; rw [hx] at hemp; simp at hemp
      obtain ⟨p0, hp0, hmin⟩ := list_exists_min_image (fun p => rank p.document_id) s.pending hpne
      have hp0ready : ∀ d ∈ Marketing.depsOf deps p0.document_id, d ∈ s.generated := by
        intro d hd
        rcases hinv p0 hp0 d hd with h | ⟨q, hq, hqd⟩
        · exact h
        · exfalso
          have h1 : rank d < rank p0.document_id := hacyc p0.document_id d hd
          have h2 : rank p0.document_id ≤ rank q.document_id := hmin q hq
          rw [hqd] at h2
          omega
      have hp0batch : p0 ∈ Marketing.docsToGenerate deps s := by
        unfold Marketing.docsToGenerate
        rw [List.mem_filter]
        refine ⟨hp0, ?_⟩
        rw [List.all_eq_true]
        intro d hd
        exact decide_eq_true (hp0ready d hd)
      have hbne : Marketing.docsToGenerate deps s ≠ [] := List.ne_nil_of_mem hp0batch
      have hbatch : (Marketing.docsToGenerate deps s).isEmpty = false := by
        cases hx : Marketing.docsToGenerate deps s with
        | nil => exact absurd hx hbne
        | cons a t => simp
      have hsucc_batch : ∀ p ∈ Marketing.docsToGenerate deps s,
          ∃ c, gen p.document_id = Marketing.GenOutcome.success c :=
        fun p hp => hsucc p (List.mem_of_mem_filter hp)
      have hstep : Marketing.generationRounds gen deps (f + 1) s
          = Marketing.generationRounds gen deps f
              (Marketing.processBatch gen s (Marketing.docsToGenerate deps s)) := by
        simp [Marketing.generationRounds, hemp, hbatch]
      have hlen2 : (Marketing.processBatch gen s
          (Marketing.docsToGenerate deps s)).pending.length ≤ f := by
        have := processBatch_pending_length_lt gen deps s hbne
        omega
      have hsucc2 : ∀ p ∈ (Marketing.processBatch gen s
          (Marketing.docsToGenerate deps s)).pending,
          ∃ c, gen p.document_id = Marketing.GenOutcome.success c := by
        intro p hp
        exact hsucc p ((mem_processBatch_pending gen _ s p).mp hp).1
      have hinv2 : ∀ p ∈ (Marketing.processBatch gen s
          (Marketing.docsToGenerate deps s)).pending,
          ∀ d ∈ Marketing.depsOf deps p.document_id,
            d ∈ (Marketing.processBatch gen s (Marketing.docsToGenerate deps s)).generated ∨
              ∃ q ∈ (Marketing.processBatch gen s
                (Marketing.docsToGenerate deps s)).pending, q.document_id = d := by
        intro p hp d hd
        obtain ⟨hps, _⟩ := (mem_processBatch_pending gen _ s p).mp hp
        rcases hinv p hps d hd with h | ⟨q, hq, hqd⟩
        · exact Or.inl ((mem_processBatch_generated gen _ s d).mpr (Or.inl h))
        · by_cases hqb : ∃ r ∈ Marketing.docsToGenerate deps s, r.document_id = d
          · obtain ⟨r, hr, hrd⟩ := hqb
            obtain ⟨c, hc⟩ := hsucc_batch r hr
            exact Or.inl
              ((mem_processBatch_generated gen _ s d).mpr (Or.inr ⟨r, hr, hrd, c, hc⟩))
          · refine Or.inr ⟨q, ?_, hqd⟩
            rw [mem_processBatch_pending]
            exact ⟨hq, fun r hr heq => hqb ⟨r, hr, heq.symm.trans hqd⟩⟩
      obtain ⟨hpend0, hstat0⟩ := ih _ hlen2 hsucc2 hinv2
      refine ⟨by rw [hstep]; exact hpend0, ?_⟩
      intro p hp
      rw [hstep]
      by_cases hpb : ∃ r ∈ Marketing.docsToGenerate deps s, r.document_id = p.document_id
      · have hwrit := dget_processBatch_status_success gen (Marketing.docsToGenerate deps s)
          s p.document_id hsucc_batch hpb
        have hnotpend : ∀ q ∈ (Marketing.processBatch gen s
            (Marketing.docsToGenerate deps s)).pending, q.document_id ≠ p.document_id := by
          intro q hq
          obtain ⟨r, hr, hrd⟩ := hpb
          have h2 := ((mem_processBatch_pending gen _ s q).mp hq).2 r hr
          intro heq
          exact h2 (heq.trans hrd.symm)
        have hpres := dget_generationRounds_not_mem gen deps f _ p.document_id hnotpend
        rw [hpres.1, hwrit]
      · have hp2 : p ∈ (Marketing.processBatch gen s
            (Marketing.docsToGenerate deps s)).pending := by
          rw [mem_processBatch_pending]
          exact ⟨hp, fun r hr heq => hpb ⟨r, hr, heq.symm⟩⟩
        exact hstat0 p hp2

theorem generationRounds_stuck_untouched (gen : String → Marketing.GenOutcome)
    (deps : List (String × List String)) (A B : String)
    (hAB : B ∈ Marketing.depsOf deps A) (hBA : A ∈ Marketing.depsOf deps B) :
    ∀ (fuel : Nat) (s : Marketing.GenLoopState),
      (∀ x, Marketing.Stuck deps A B x → x ∉ s.generated) →
      ∀ x, Marketing.Stuck deps A B x →
        dget (Marketing.generationRounds gen deps fuel s).document_status x
            = dget s.document_status x ∧
          dget (Marketing.generationRounds gen deps fuel s).document_contents x
            = dget s.document_contents x := by
  intro fuel
  induction fuel with
  | zero => intro s _ x _; exact ⟨rfl, rfl⟩
  | succ f ih =>
    intro s hgen x hx
    cases hemp : s.pending.isEmpty with
    | true => simp [Marketing.generationRounds, hemp]
    | false =>
      cases hbatch : (Marketing.docsToGenerate deps s).isEmpty with
      | true => simp [Marketing.generationRounds, hemp, hbatch]
      | false =>
        have hbatch_not_stuck : ∀ p ∈ Marketing.docsToGenerate deps s,
            ¬ Marketing.Stuck deps A B p.document_id := by
          intro p hp hstuck
          have hready : ∀ d ∈ Marketing.depsOf deps p.document_id, d ∈ s.generated := by
            have hall := (List.mem_filter.mp hp).2
            rw [List.all_eq_true] at hall
            intro d hd
            exact of_decide_eq_true (hall d hd)
          generalize hid : p.document_id = pid at hstuck hready
          cases hstuck with
          | isA => exact hgen B Marketing.Stuck.isB (hready B hAB)
          | isB => exact hgen A Marketing.Stuck.isA (hready A hBA)
          | dep y d hd hstuckd => exact hgen d hstuckd (hready d hd)
        have hxne : ∀ p ∈ Marketing.docsToGenerate deps s, p.document_id ≠ x := by
          intro p hp heq
          exact hbatch_not_stuck p hp (by rw [heq]; exact hx)
        have hb := dget_processBatch_not_mem gen (Marketing.docsToGenerate deps s) s x hxne
        have hgen2 : ∀ y, Marketing.Stuck deps A B y →
            y ∉ (Marketing.processBatch gen s (Marketing.docsToGenerate deps s)).generated := by
          intro y hy hmem
          rcases (mem_processBatch_generated gen _ s y).mp hmem with h | ⟨r, hr, hrd, _, _⟩
          · exact hgen y hy h
          · exact hbatch_not_stuck r hr (by rw [hrd]; exact hy)
        have hrec := ih (Marketing.processBatch gen s (Marketing.docsToGenerate deps s)) hgen2 x hx
        have hstep : Marketing.generationRounds gen deps (f + 1) s
            = Marketing.generationRounds gen deps f
                (Marketing.processBatch gen s (Marketing.docsToGenerate deps s)) := by
          simp [Marketing.generationRounds, hemp, hbatch]
        rw [hstep]
        exact ⟨hrec.1.trans hb.1, hrec.2.trans hb.2⟩

/-- C2, counterexample: with two acyclic documents where `doc_002` depends
on `doc_001` and generation fails for `doc_001`, the scheduler's
zero-progress break leaves `doc_002` with status `PENDING` at the end of
the generation stage — refuting the claim that no item's status remains
Pending for cycle-free graphs. -/
theorem c2_pending_counterexample :
    dget (Marketing.generate_all_documents Marketing.failDoc1Gen
          Marketing.chainState).document_status "doc_001"
        = some Marketing.DocumentStatus.FAILED ∧
      dget (Marketing.generate_all_documents Marketing.failDoc1Gen
          Marketing.chainState).document_status "doc_002"
        = some Marketing.DocumentStatus.PENDING ∧
      some Marketing.DocumentStatus.PENDING ≠ some Marketing.DocumentStatus.FAILED := by
  refine ⟨rfl, rfl, by decide⟩

/-- C2 (amended): for every cycle-free dependency graph whose
dependencies reference planned ids, the scheduler terminates within
`2 × item_count` rounds (extra fuel beyond the cap changes nothing), and
when additionally every generation call succeeds, every item reaches the
stage's success status (REVIEWING) — so none remains Pending.  The
original claim's unconditional "no item remains Pending" fails when a
dependency's generation fails (see the counterexample). -/
theorem c2_acyclic_scheduler_amended
    (gen : String → Marketing.GenOutcome) (state : Marketing.MarketingDocumentState)
    (rank : String → Nat)
    (hacyc : Marketing.RankedAcyclic state.document_dependencies rank)
    (hclosed : Marketing.ClosedDeps state.document_dependencies state.document_plans)
    (hsucc : ∀ p ∈ state.document_plans,
      ∃ c, gen p.document_id = Marketing.GenOutcome.success c) :
    (∀ p ∈ state.document_plans,
        dget (Marketing.generate_all_documents gen state).document_status p.document_id
          = some Marketing.DocumentStatus.REVIEWING) ∧
      ∀ k : Nat,
        Marketing.generationRounds gen state.document_dependencies
            (state.document_plans.length * 2 + k)
            { generated := [], document_status := state.document_status
              document_contents := state.document_contents, pending := state.document_plans }
          = Marketing.generationRounds gen state.document_dependencies
              (state.document_plans.length * 2)
              { generated := [], document_status := state.document_status
                document_contents := state.document_contents
                pending := state.document_plans } := by
  have hmain := generationRounds_completes gen state.document_dependencies rank hacyc
    (state.document_plans.length * 2)
    { generated := [], document_status := state.document_status
      document_contents := state.document_contents, pending := state.document_plans }
    (by change state.document_plans.length ≤ state.document_plans.length * 2; omega)
    hsucc
    (fun p hp d hd => Or.inr (hclosed p hp d hd))
  constructor
  · intro p hp
    exact hmain.2 p hp
  · intro k
    exact generationRounds_stable_add gen state.document_dependencies k
      (state.document_plans.length * 2)
      { generated := [], document_status := state.document_status
        document_contents := state.document_contents, pending := state.document_plans }
      (by change state.document_plans.length ≤ state.document_plans.length * 2; omega)

/-- Witness for the amended C2: the two-document chain with an
always-succeeding client ends with `doc_002` in REVIEWING status. -/
theorem c2_acyclic_scheduler_amended_witness :
    Marketing.ClosedDeps Marketing.chainState.document_dependencies
        Marketing.chainState.document_plans ∧
      dget (Marketing.generate_all_documents Marketing.alwaysOkGen
          Marketing.chainState).document_status "doc_002"
        = some Marketing.DocumentStatus.REVIEWING := by
  constructor
  · unfold Marketing.ClosedDeps
    decide
  · have hacyc : Marketing.RankedAcyclic Marketing.chainState.document_dependencies
        (fun id => if id = "doc_002" then 1 else 0) := by
      intro id d hd
      by_cases h : id = "doc_002"
      · subst h
        have hd2 : d ∈ ["doc_001"] := hd
        have hd1 : d = "doc_001" := by simpa using hd2
        subst hd1
        decide
      · exfalso
        have hd0 : Marketing.depsOf Marketing.chainState.document_dependencies id = [] := by
          show (dget [("doc_002", ["doc_001"])] id).getD [] = []
          unfold dget
          rw [if_neg (fun hh => h hh.symm)]
          rfl
        rw [hd0] at hd
        cases hd
    exact (c2_acyclic_scheduler_amended Marketing.alwaysOkGen Marketing.chainState
        (fun id => if id = "doc_002" then 1 else 0) hacyc
        (by unfold Marketing.ClosedDeps; decide)
        (fun p _ => ⟨"content", rfl⟩)).1 { document_id := "doc_002" } (by decide)

/-- C3, counterexample: with the cycle `doc_001 → doc_002 → doc_001` the
scheduler stops but leaves both cyclic items with status `PENDING` — it
does not mark them Failed and records no dependency-unresolved reason,
refuting the claim that both end in Failed. -/
theorem c3_cycle_counterexample :
    dget (Marketing.generate_all_documents Marketing.alwaysOkGen
          Marketing.cycleState).document_status "doc_001"
        = some Marketing.DocumentStatus.PENDING ∧
      dget (Marketing.generate_all_documents Marketing.alwaysOkGen
          Marketing.cycleState).document_status "doc_002"
        = some Marketing.DocumentStatus.PENDING ∧
      dget (Marketing.generate_all_documents Marketing.alwaysOkGen
          Marketing.cycleState).document_contents "doc_001"
        = none ∧
      some Marketing.DocumentStatus.PENDING ≠ some Marketing.DocumentStatus.FAILED := by
  refine ⟨rfl, rfl, rfl, by decide⟩

/-- C3 (amended): for every dependency graph with a cycle `A → B → A`,
the scheduler stops rather than spinning forever (the zero-progress break
fires under the `2 × item_count` cap), but it leaves the two cyclic items
and every item depending transitively on them exactly as they were:
status unchanged (Pending, not Failed) and no "dependency not resolved"
reason recorded in their contents; in particular no such item reaches the
generation-success status. -/
theorem c3_cycle_amended (gen : String → Marketing.GenOutcome)
    (state : Marketing.MarketingDocumentState) (A B : String)
    (hAB : B ∈ Marketing.depsOf state.document_dependencies A)
    (hBA : A ∈ Marketing.depsOf state.document_dependencies B) :
    ∀ x, Marketing.Stuck state.document_dependencies A B x →
      dget (Marketing.generate_all_documents gen state).document_status x
          = dget state.document_status x ∧
        dget (Marketing.generate_all_documents gen state).document_contents x
          = dget state.document_contents x := by
  intro x hx
  exact generationRounds_stuck_untouched gen state.document_dependencies A B hAB hBA
    (state.document_plans.length * 2)
    { generated := [], document_status := state.document_status
      document_contents := state.document_contents, pending := state.document_plans }
    (fun y _ => List.not_mem_nil y) x hx

/-- Witness for the amended C3 at the concrete cyclic instance. -/
theorem c3_cycle_amended_witness :
    ("doc_002" ∈ Marketing.depsOf Marketing.cycleState.document_dependencies "doc_001") ∧
      dget (Marketing.generate_all_documents Marketing.alwaysOkGen
          Marketing.cycleState).document_status "doc_001"
        = dget Marketing.cycleState.document_status "doc_001" :=
  ⟨by decide,
   (c3_cycle_amended Marketing.alwaysOkGen Marketing.cycleState "doc_001" "doc_002"
      (by decide) (by decide) "doc_001" Marketing.Stuck.isA).1⟩

theorem validateDocsLoop_raises (validate : String → Marketing.ValidationOutcome) :
    ∀ (entries : List (String × Marketing.DocContent))
      (state : Marketing.MarketingDocumentState),
      (entries.map Prod.fst).Nodup →
      (∃ kv ∈ entries, Marketing.PassesIndividualValidation validate state kv) →
      ∃ s2, Marketing.validateDocsLoop validate entries state = (s2, some "VALIDATED") ∧
        s2.retry_count = state.retry_count ∧
        s2.error_message = state.error_message ∧
        s2.messages = state.messages ∧
        ∀ id, dget s2.document_status id = dget state.document_status id ∨
          dget s2.document_status id = some Marketing.DocumentStatus.REQUIRES_REVISION := by
  intro entries
  induction entries with
  | nil => intro state _ hex; simp at hex
  | cons kv rest ih =>
    intro state hnd hex
    obtain ⟨doc_id, content⟩ := kv
    have hndt : (rest.map Prod.fst).Nodup := (List.nodup_cons.mp hnd).2
    have hndh : doc_id ∉ rest.map Prod.fst := (List.nodup_cons.mp hnd).1
    by_cases hqual : Marketing.PassesIndividualValidation validate state (doc_id, content)
    · obtain ⟨hstat, hplan, herr, hpass⟩ := hqual
      obtain ⟨pl, hpl⟩ := Option.isSome_iff_exists.mp hplan
      have hattr : Marketing.documentStatusAttr "VALIDATED" = Except.error "VALIDATED" := rfl
      by_cases hop : (validate doc_id).overall_pass = true
      · refine ⟨{ state with
            validation_results := dset state.validation_results doc_id true
            quality_scores := dset state.quality_scores doc_id (validate doc_id).quality_score },
          ?_, rfl, rfl, rfl, fun id => Or.inl rfl⟩
        simp [Marketing.validateDocsLoop, hstat, hpl, herr, hop, hattr]
      · have hop2 : (validate doc_id).overall_pass = false := by
          simpa using hop
        have hcrit : (validate doc_id).has_critical_issue = false := by
          rcases hpass with h | h
          · exact absurd h hop
          · exact h
        refine ⟨{ state with
            validation_results := dset state.validation_results doc_id true
            quality_scores := dset state.quality_scores doc_id (validate doc_id).quality_score },
          ?_, rfl, rfl, rfl, fun id => Or.inl rfl⟩
        simp [Marketing.validateDocsLoop, hstat, hpl, herr, hop2, hcrit, hattr]
    · have hwit : ∃ kv2 ∈ rest, Marketing.PassesIndividualValidation validate state kv2 := by
        obtain ⟨kv2, hkv2, hq2⟩ := hex
        rcases List.mem_cons.mp hkv2 with h | h
        · rw [h] at hq2; exact absurd hq2 hqual
        · exact ⟨kv2, h, hq2⟩
      by_cases hstat : dget state.document_status doc_id = some Marketing.DocumentStatus.REVIEWING
      · by_cases hplan : (state.document_plans.find?
            (fun p => decide (p.document_id = doc_id))).isSome = true
        · obtain ⟨pl, hpl⟩ := Option.isSome_iff_exists.mp hplan
          by_cases herr : (validate doc_id).has_error = true
          · -- validation reply is error-shaped: record and continue
            have hloop : Marketing.validateDocsLoop validate ((doc_id, content) :: rest) state
                = Marketing.validateDocsLoop validate rest
                    { state with
                        validation_results := dset state.validation_results doc_id false
                        quality_scores := dset state.quality_scores doc_id (1 / 2) } := by
              simp [Marketing.validateDocsLoop, hstat, hpl, herr]
            obtain ⟨s2, heq, hrc, hem, hmsg, hst⟩ := ih
              { state with
                  validation_results := dset state.validation_results doc_id false
                  quality_scores := dset state.quality_scores doc_id (1 / 2) }
              hndt hwit
            exact ⟨s2, by rw [hloop]; exact heq, hrc, hem, hmsg, hst⟩
          · -- parsed reply that does not pass and has a critical issue
            have herr2 : (validate doc_id).has_error = false := by simpa using herr
            have hop2 : (validate doc_id).overall_pass = false := by
              by_contra hop
              exact hqual ⟨hstat, hplan, herr2, Or.inl (by simpa using hop)⟩
            have hcrit : (validate doc_id).has_critical_issue = true := by
              by_contra hc
              exact hqual ⟨hstat, hplan, herr2, Or.inr (by simpa using hc)⟩
            have hloop : Marketing.validateDocsLoop validate ((doc_id, content) :: rest) state
                = Marketing.validateDocsLoop validate rest
                    { state with
                        validation_results := dset state.validation_results doc_id true
                        quality_scores :=
                          dset state.quality_scores doc_id (validate doc_id).quality_score
                        document_status := dset state.document_status doc_id
                          Marketing.DocumentStatus.REQUIRES_REVISION } := by
              simp [Marketing.validateDocsLoop, hstat, hpl, herr2, hop2, hcrit]
            have hwit2 : ∃ kv2 ∈ rest,
                Marketing.PassesIndividualValidation validate
                  { state with
                      validation_results := dset state.validation_results doc_id true
                      quality_scores :=
                        dset state.quality_scores doc_id (validate doc_id).quality_score
                      document_status := dset state.document_status doc_id
                        Marketing.DocumentStatus.REQUIRES_REVISION } kv2 := by
              obtain ⟨kv2, hkv2, hq2⟩ := hwit
              refine ⟨kv2, hkv2, ?_, hq2.2.1, hq2.2.2.1, hq2.2.2.2⟩
              have hne : doc_id ≠ kv2.1 := by
                intro heq
                exact hndh (heq ▸ List.mem_map_of_mem Prod.fst hkv2)
              show dget (dset state.document_status doc_id
                  Marketing.DocumentStatus.REQUIRES_REVISION) kv2.1
                = some Marketing.DocumentStatus.REVIEWING
              rw [dget_dset_ne _ _ _ _ hne]
              exact hq2.1
            obtain ⟨s2, heq, hrc, hem, hmsg, hst⟩ := ih _ hndt hwit2
            refine ⟨s2, by rw [hloop]; exact heq, hrc, hem, hmsg, ?_⟩
            intro id
            rcases hst id with h | h
            · by_cases hid : doc_id = id
              · subst hid
                right
                rw [h]
                exact dget_dset_self _ _ _
              · left
                rw [h]
                exact dget_dset_ne _ _ _ _ hid
            · exact Or.inr h
        · -- no plan for this document: skipped
          have hpl2 : (state.document_plans.find?
              (fun p => decide (p.document_id = doc_id))).isNone = true := by
            cases hx : state.document_plans.find? (fun p => decide (p.document_id = doc_id)) with
            | none => rfl
            | some v => rw [hx] at hplan; simp at hplan
          have hloop : Marketing.validateDocsLoop validate ((doc_id, content) :: rest) state
              = Marketing.validateDocsLoop validate rest state := by
            simp [Marketing.validateDocsLoop, hstat, hpl2]
          obtain ⟨s2, heq, hrc, hem, hmsg, hst⟩ := ih _ hndt hwit
          exact ⟨s2, by rw [hloop]; exact heq, hrc, hem, hmsg, hst⟩
      · -- not in REVIEWING status: skipped
        have hloop : Marketing.validateDocsLoop validate ((doc_id, content) :: rest) state
            = Marketing.validateDocsLoop validate rest state := by
          simp [Marketing.validateDocsLoop, hstat]
        obtain ⟨s2, heq, hrc, hem, hmsg, hst⟩ := ih _ hndt hwit
        exact ⟨s2, by rw [hloop]; exact heq, hrc, hem, hmsg, hst⟩

/-- C9: `VALIDATED` is not a member of the marketing `DocumentStatus`
enumeration, so whenever some generated document reaches the branch that
passes individual validation (overall_pass true, or failing with no
critical issue), `validate_individual_documents` raises `AttributeError`
at `DocumentStatus.VALIDATED` and exits through the error handler,
incrementing the retry counter; the stage never sets any document's
status to a validated value — the only status it ever writes is
REQUIRES_REVISION. -/
theorem c9_validated_attribute_error (validate : String → Marketing.ValidationOutcome)
    (state : Marketing.MarketingDocumentState)
    (hnodup : (state.document_contents.map Prod.fst).Nodup)
    (hqual : ∃ kv ∈ state.document_contents,
      Marketing.PassesIndividualValidation validate state kv) :
    Marketing.documentStatusAttr "VALIDATED" = Except.error "VALIDATED" ∧
      (Marketing.validate_individual_documents validate state).retry_count
          = some (state.retry_count.getD 0 + 1) ∧
      (Marketing.validate_individual_documents validate state).error_message
          = some "validate_individual_documents failed: VALIDATED" ∧
      ∀ id, dget (Marketing.validate_individual_documents validate state).document_status id
            = dget state.document_status id ∨
          dget (Marketing.validate_individual_documents validate state).document_status id
            = some Marketing.DocumentStatus.REQUIRES_REVISION := by
  obtain ⟨s2, heq, hrc, hem, hmsg, hst⟩ := validateDocsLoop_raises validate
    state.document_contents
    { state with status := "validating_documents", current_stage := "individual_validation" }
    hnodup hqual
  have hstage : Marketing.validate_individual_documents validate state
      = Marketing.handle_node_error s2 "VALIDATED" "validate_individual_documents" := by
    have h := congrArg
      (fun r : Marketing.MarketingDocumentState × Option String =>
        (match r with
         | (s, some err) => Marketing.handle_node_error s err "validate_individual_documents"
         | (s, none) =>
             { s with messages := s.messages ++ ["Individual validation complete."] } :
          Marketing.MarketingDocumentState))
      heq
    exact h
  refine ⟨rfl, ?_, ?_, ?_⟩
  · rw [hstage]
    show some (s2.retry_count.getD 0 + 1) = some (state.retry_count.getD 0 + 1)
    rw [hrc]
  · rw [hstage]
    show some ("validate_individual_documents" ++ " failed: " ++ "VALIDATED")
        = some "validate_individual_documents failed: VALIDATED"
    rfl
  · intro id
    rw [hstage]
    exact hst id

/-- Witness for C9: one reviewed document whose validation passes makes
the stage exit through the error handler with the retry counter at 1. -/
theorem c9_validated_attribute_error_witness :
    ((Marketing.reviewingState.document_contents.map Prod.fst).Nodup ∧
        ∃ kv ∈ Marketing.reviewingState.document_contents,
          Marketing.PassesIndividualValidation Marketing.passingValidation
            Marketing.reviewingState kv) ∧
      (Marketing.validate_individual_documents Marketing.passingValidation
          Marketing.reviewingState).retry_count = some 1 := by
  have hqual : ∃ kv ∈ Marketing.reviewingState.document_contents,
      Marketing.PassesIndividualValidation Marketing.passingValidation
        Marketing.reviewingState kv := by
    refine ⟨("doc_001", Marketing.DocContent.generated "content"), by decide, ?_⟩
    unfold Marketing.PassesIndividualValidation
    refine ⟨by decide, by decide, rfl, Or.inl rfl⟩
  refine ⟨⟨by decide, hqual⟩, ?_⟩
  have h := c9_validated_attribute_error Marketing.passingValidation
    Marketing.reviewingState (by decide) hqual
  rw [h.2.1]
  rfl

/-- C6: each invocation of the error handler (both workflow variants)
increments the run-level retry counter by exactly 1 — two invocations on
the same exception increment by exactly 1 each (no double counting) —
records `"<stage> failed: <message>"`, appends exactly one log entry
carrying the current retry count, and returns the mutated state (the
embedded handlers are total functions: nothing is raised). -/
theorem c6_error_handler_contract (mstate : Marketing.MarketingDocumentState)
    (cstate : CW.ComplianceAgentState) (error node_name : String) :
    ((Marketing.handle_node_error mstate error node_name).retry_count
        = some (mstate.retry_count.getD 0 + 1) ∧
      (Marketing.handle_node_error (Marketing.handle_node_error mstate error node_name)
          error node_name).retry_count = some (mstate.retry_count.getD 0 + 2) ∧
      (Marketing.handle_node_error mstate error node_name).error_message
        = some (node_name ++ " failed: " ++ error) ∧
      (Marketing.handle_node_error mstate error node_name).messages
        = mstate.messages ++
            [Marketing.processingErrorMessage node_name (mstate.retry_count.getD 0 + 1)]) ∧
    ((CW.handle_node_error cstate error node_name).retry_count
        = some (cstate.retry_count.getD 0 + 1) ∧
      (CW.handle_node_error (CW.handle_node_error cstate error node_name)
          error node_name).retry_count = some (cstate.retry_count.getD 0 + 2) ∧
      (CW.handle_node_error cstate error node_name).error_message
        = some (node_name ++ " failed: " ++ error) ∧
      (CW.handle_node_error cstate error node_name).messages
        = cstate.messages ++
            [Marketing.processingErrorMessage node_name (cstate.retry_count.getD 0 + 1)]) := by
  constructor
  · exact ⟨rfl, rfl, rfl, rfl⟩
  · exact ⟨rfl, rfl, rfl, rfl⟩

/-- C4, counterexample: starting from a fresh run, three stage-level
failures leave `retry_count = 3` but the run status is still INITIATED —
no code path ever sets it to FAILED, refuting the claim that the third
occurrence sets the run's status to Failed. -/
theorem c4_no_escalation_counterexample :
    (CW.handle_node_error (CW.handle_node_error (CW.handle_node_error
        CW.baseState "boom" "generate_documents") "boom" "generate_documents")
        "boom" "generate_documents").retry_count = some 3 ∧
      (CW.handle_node_error (CW.handle_node_error (CW.handle_node_error
          CW.baseState "boom" "generate_documents") "boom" "generate_documents")
          "boom" "generate_documents").status = CW.AssessmentStatus.INITIATED ∧
      CW.AssessmentStatus.INITIATED ≠ CW.AssessmentStatus.FAILED := by
  refine ⟨by decide, by decide, by decide⟩

/-- C4 (amended): stage-level errors never escalate: after three
stage-level failures the retry counter reads 3 more than before, but the
error handler leaves the run status untouched (it is never set to
Failed), and consolidation still runs over whatever partial state exists
— the graph's edges are unconditional, chaining every stage into
`consolidate_results` and then END regardless of the retry count. -/
theorem c4_retry_no_escalation_amended (state : CW.ComplianceAgentState)
    (e1 n1 e2 n2 e3 n3 : String) :
    (CW.handle_node_error (CW.handle_node_error (CW.handle_node_error state e1 n1)
          e2 n2) e3 n3).retry_count = some (state.retry_count.getD 0 + 3) ∧
      (CW.handle_node_error (CW.handle_node_error (CW.handle_node_error state e1 n1)
          e2 n2) e3 n3).status = state.status ∧
      (∀ e ∈ CW.chainedEdges CW.compliance_pipeline, e ∈ CW.build_compliance_graph.edges) ∧
      CW.build_compliance_graph.entry_point = "analyze_project" ∧
      ("validate_requirements", "consolidate_results") ∈ CW.build_compliance_graph.edges ∧
      ("consolidate_results", CW.END_NODE) ∈ CW.build_compliance_graph.edges := by
  have hr : ∀ (s : CW.ComplianceAgentState) (e n : String),
      (CW.handle_node_error s e n).retry_count = some (s.retry_count.getD 0 + 1) :=
    fun s e n => rfl
  have hs : ∀ (s : CW.ComplianceAgentState) (e n : String),
      (CW.handle_node_error s e n).status = s.status :=
    fun s e n => rfl
  refine ⟨?_, ?_, by decide, rfl, by decide, by decide⟩
  · rw [hr, hr, hr]
    simp only [Option.getD_some, Option.some.injEq]
  · simp only [hs]

theorem buildDocSummary_ok (kv : String × CW.DocumentResult) :
    ∃ r, CW.buildDocSummary kv = .ok r := by
  unfold CW.buildDocSummary
  by_cases h : (kv.2.success && kv.2.content.isSome) = true
  · rw [if_pos h]
    obtain ⟨c, hc⟩ := Option.isSome_iff_exists.mp (Bool.and_elim_right h)
    rw [hc]
    exact ⟨_, rfl⟩
  · rw [if_neg h]
    exact ⟨_, rfl⟩

theorem buildDocSummaries_ok (results : List (String × CW.DocumentResult)) :
    ∃ rs, CW.buildDocSummaries results = .ok rs := by
  induction results with
  | nil => exact ⟨[], rfl⟩
  | cons kv rest ih =>
    obtain ⟨r, hr⟩ := buildDocSummary_ok kv
    obtain ⟨rs, hrs⟩ := ih
    cases r with
    | none =>
      refine ⟨rs, ?_⟩
      show (CW.buildDocSummary kv >>= fun h =>
        CW.buildDocSummaries rest >>= fun t =>
          match h with
          | some s => Except.ok (s :: t)
          | none => Except.ok t) = Except.ok rs
      rw [hr, hrs]
      rfl
    | some s =>
      refine ⟨s :: rs, ?_⟩
      show (CW.buildDocSummary kv >>= fun h =>
        CW.buildDocSummaries rest >>= fun t =>
          match h with
          | some s => Except.ok (s :: t)
          | none => Except.ok t) = Except.ok (s :: rs)
      rw [hr, hrs]
      rfl

/-- C5, counterexample: with two generation results of which only one is
Completed (the other Failed), fewer than 2 items are Completed, yet
cross-document validation is NOT skipped — the guard counts all
generation results, so the stage runs and records status "completed". -/
theorem c5_skip_guard_counterexample :
    ((CW.mixedResultsState.document_results.filter
          (fun kv => decide (kv.2.status = CW.DocumentStatus.COMPLETED))).length < 2) ∧
      ∃ s2, CW.validate_cross_document_consistency CW.okCrossReply CW.mixedResultsState
          = .ok s2 ∧
        s2.cross_validation_results.map (fun r => r.status) = some "completed" ∧
        some "completed" ≠ some "skipped" := by
  refine ⟨by decide, ⟨_, rfl, by decide, by decide⟩⟩

/-- C5 (amended): cross-document validation is skipped, recording status
"skipped", whenever fewer than 2 generation results exist — the guard
counts every generation result including Failed ones, not the Completed
items; and for every state (in particular with exactly 2 Completed items
of empty content) the stage returns normally instead of raising. -/
theorem c5_skip_guard_amended (llm : CW.CrossValidationReply)
    (state : CW.ComplianceAgentState) :
    (state.document_results.length < 2 →
        ∃ s2, CW.validate_cross_document_consistency llm state = .ok s2 ∧
          s2.cross_validation_results.map (fun r => r.status) = some "skipped") ∧
      ∃ s2, CW.validate_cross_document_consistency llm state = .ok s2 := by
  constructor
  · intro h
    unfold CW.validate_cross_document_consistency
    rw [if_pos h]
    exact ⟨_, rfl, rfl⟩
  · by_cases h : state.document_results.length < 2
    · unfold CW.validate_cross_document_consistency
      rw [if_pos h]
      exact ⟨_, rfl⟩
    · obtain ⟨rs, hrs⟩ := buildDocSummaries_ok state.document_results
      unfold CW.validate_cross_document_consistency
      rw [if_neg h]
      cases llm with
      | ok consistent score => exact ⟨_, by rw [hrs]; rfl⟩
      | llm_error e => exact ⟨_, by rw [hrs]; rfl⟩

/-- Witness for the amended C5: a single-result state is skipped; the
two-Completed-empty-content state returns normally. -/
theorem c5_skip_guard_amended_witness :
    (CW.baseState.document_results.length < 2 ∧
        ∃ s2, CW.validate_cross_document_consistency CW.okCrossReply CW.baseState = .ok s2 ∧
          s2.cross_validation_results.map (fun r => r.status) = some "skipped") ∧
      ∃ s2, CW.validate_cross_document_consistency CW.okCrossReply CW.twoCompletedState
        = .ok s2 :=
  ⟨⟨by decide, (c5_skip_guard_amended CW.okCrossReply CW.baseState).1 (by decide)⟩,
   (c5_skip_guard_amended CW.okCrossReply CW.twoCompletedState).2⟩

theorem passed_record_eq (validate : String → CW.IndividualVerdict)
    (kv : String × CW.DocumentResult) :
    CW.isPassedRecord (CW.validationRecordFor validate kv)
      = CW.individually_passed validate kv := by
  unfold CW.validationRecordFor CW.individually_passed
  cases hs : kv.2.success with
  | false => simp [CW.isPassedRecord]
  | true =>
    cases hc : kv.2.content with
    | none => simp [CW.isPassedRecord]
    | some c =>
      simp only [hc, Bool.not_true, Option.isSome_some, Option.isNone_some, Bool.or_false,
        Bool.and_self, Bool.true_and, if_false, Bool.false_or]
      cases hv : validate kv.1 with
      | llm_error e => simp [CW.isPassedRecord]
      | ok passed => cases passed <;> simp [CW.isPassedRecord]

theorem passed_count_eq (validate : String → CW.IndividualVerdict)
    (results : List (String × CW.DocumentResult)) :
    ((results.map (fun kv => (kv.1, CW.validationRecordFor validate kv))).filter
        (fun kv => CW.isPassedRecord kv.2)).length
      = (results.filter (CW.individually_passed validate)).length := by
  induction results with
  | nil => rfl
  | cons kv rest ih =>
    cases hp : CW.individually_passed validate kv <;>
      simp [List.filter_cons, passed_record_eq validate kv, hp, ih]

theorem consolidate_ok (state : CW.ComplianceAgentState) :
    ∃ s2, CW.consolidate_project_results state = .ok s2 ∧
      s2.executive_summary.map (fun es => es.overall_compliance_score)
        = some ((match state.validation_summary with
            | some vs => vs.validation_rate
            | none => 0) * 100) := by
  unfold CW.consolidate_project_results
  cases hu : state.document_urls with
  | nil => exact ⟨_, rfl, rfl⟩
  | cons u rest => exact ⟨_, rfl, rfl⟩

/-- C7: the individual-validation summary's rate equals
(# items individually passed) / (# items attempted), where the
denominator counts every generation result, the failed ones included,
and consolidation then emits an executive summary (no exception) whose
compliance score is that rate times 100. -/
theorem c7_validation_rate (validate : String → CW.IndividualVerdict)
    (state : CW.ComplianceAgentState) (hne : state.document_results ≠ []) :
    ((CW.validate_individual_documents validate state).validation_summary).map
          (fun vs => vs.validation_rate)
        = some ((CW.spec_items_passed validate state : Rat)
            / (CW.spec_items_attempted state : Rat)) ∧
      ((CW.validate_individual_documents validate state).validation_summary).map
          (fun vs => vs.total_documents) = some (CW.spec_items_attempted state) ∧
      ∃ s2, CW.consolidate_project_results (CW.validate_individual_documents validate state)
          = .ok s2 ∧
        s2.executive_summary.map (fun es => es.overall_compliance_score)
          = some (((CW.spec_items_passed validate state : Rat)
              / (CW.spec_items_attempted state : Rat)) * 100) := by
  have hne2 : state.document_results.isEmpty = false := by
    cases hx : state.document_results with
    | nil => exact absurd hx hne
    | cons a t => rfl
  have hcond : ¬(state.document_results.isEmpty = true) := by rw [hne2]; exact Bool.false_ne_true
  have hmain : (CW.validate_individual_documents validate state).validation_summary
      = some
        { total_documents := state.document_results.length,
          validated := ((state.document_results.map
              (fun kv => (kv.1, CW.validationRecordFor validate kv))).filter
              (fun kv => CW.isValidatedRecord kv.2)).length,
          passed := ((state.document_results.map
              (fun kv => (kv.1, CW.validationRecordFor validate kv))).filter
              (fun kv => CW.isPassedRecord kv.2)).length,
          failed := ((state.document_results.map
              (fun kv => (kv.1, CW.validationRecordFor validate kv))).filter
              (fun kv => CW.isValidatedRecord kv.2)).length -
            ((state.document_results.map
              (fun kv => (kv.1, CW.validationRecordFor validate kv))).filter
              (fun kv => CW.isPassedRecord kv.2)).length,
          validation_rate :=
            if state.document_results.isEmpty then 0
            else (((state.document_results.map
                (fun kv => (kv.1, CW.validationRecordFor validate kv))).filter
                (fun kv => CW.isPassedRecord kv.2)).length : Rat)
              / (state.document_results.length : Rat) } := by
    unfold CW.validate_individual_documents
    rw [if_neg hcond]
  have hrate : ((state.document_results.map
      (fun kv => (kv.1, CW.validationRecordFor validate kv))).filter
      (fun kv => CW.isPassedRecord kv.2)).length
    = CW.spec_items_passed validate state := passed_count_eq validate state.document_results
  refine ⟨?_, ?_, ?_⟩
  · rw [hmain]
    simp only [Option.map_some']
    rw [if_neg hcond, hrate]
    rfl
  · rw [hmain]
    rfl
  · obtain ⟨s2, hs2, hscore⟩ := consolidate_ok (CW.validate_individual_documents validate state)
    refine ⟨s2, hs2, ?_⟩
    rw [hscore, hmain]
    rw [if_neg hcond, hrate]
    rfl

/-- Witness for C7: with one Completed and one Failed result out of two
attempted and a passing validator, the validation rate is 0.5 and
consolidation succeeds. -/
theorem c7_validation_rate_witness :
    CW.mixedResultsState.document_results ≠ [] ∧
      ((CW.validate_individual_documents CW.allPassVerdict
            CW.mixedResultsState).validation_summary).map (fun vs => vs.validation_rate)
        = some ((1 : Rat) / 2) ∧
      ∃ s2, CW.consolidate_project_results (CW.validate_individual_documents CW.allPassVerdict
          CW.mixedResultsState) = .ok s2 := by
  have h := c7_validation_rate CW.allPassVerdict CW.mixedResultsState (by decide)
  refine ⟨by decide, ?_, ?_⟩
  · rw [h.1]
    have hp : CW.spec_items_passed CW.allPassVerdict CW.mixedResultsState = 1 := by decide
    have ha : CW.spec_items_attempted CW.mixedResultsState = 2 := by decide
    rw [hp, ha]
    norm_num
  · obtain ⟨s2, hs2, _⟩ := h.2.2
    exact ⟨s2, hs2⟩

/-- C8: in the parallel branch, each gathered outcome is processed by a
per-item projection: the stored results are exactly the pointwise map of
that projection over the plans, so one item's raised exception or
error-shaped reply is recorded on that item alone (status FAILED,
success false) and cannot abort or alter any sibling of the batch. -/
theorem c8_failure_isolation (run : CW.DocumentPlan → CW.TaskOutcome)
    (state : CW.ComplianceAgentState)
    (hpar : state.parallel_execution = true)
    (hlen : 1 < state.document_plans.length)
    (hnodup : (state.document_plans.map (fun p => p.document_id)).Nodup)
    (hids : ∀ p ∈ state.document_plans, ∀ r, run p = CW.TaskOutcome.returned r →
      r.document_id = p.document_id) :
    ∃ s2, CW.execute_document_generation run state = .ok s2 ∧
      s2.document_results
          = state.document_plans.map (fun p => CW.processParallelResult p (run p)) ∧
      ∀ p ∈ state.document_plans, ∀ e, run p = CW.TaskOutcome.raised e →
        dget s2.document_results p.document_id = some (CW.failedTaskResult p e) ∧
        (CW.failedTaskResult p e).status = CW.DocumentStatus.FAILED ∧
        (CW.failedTaskResult p e).success = false := by
  have hkeys : state.document_plans.map (fun p => (CW.processParallelResult p (run p)).1)
      = state.document_plans.map (fun p => p.document_id) := by
    apply List.map_congr_left
    intro p hp
    cases hr : run p with
    | raised e => rfl
    | returned r => exact hids p hp r hr
  have hnodupf : (state.document_plans.map
      (fun p => (CW.processParallelResult p (run p)).1)).Nodup := by
    rw [hkeys]; exact hnodup
  have hzip : state.document_plans.zip (state.document_plans.map run)
      = state.document_plans.map (fun p => (p, run p)) :=
    list_zip_map_self run state.document_plans
  have hne : state.document_plans.isEmpty = false := by
    cases hx : state.document_plans with
    | nil => rw [hx] at hlen; simp at hlen
    | cons a t => rfl
  have hcond2 : (state.parallel_execution && decide (1 < state.document_plans.length)) = true := by
    rw [hpar]
    simp [hlen]
  have hkeysnodup : ((state.document_plans.map
      (fun p => CW.processParallelResult p (run p))).map Prod.fst).Nodup := by
    rw [List.map_map]
    exact hnodupf
  have hfold : (state.document_plans.map (fun p => (p, run p))).foldl
      (fun acc pr => dset acc (CW.processParallelResult pr.1 pr.2).1
        (CW.processParallelResult pr.1 pr.2).2) []
      = state.document_plans.map (fun p => CW.processParallelResult p (run p)) := by
    rw [List.foldl_map]
    have h2 := foldl_dset_eq_append
      (state.document_plans.map (fun p => CW.processParallelResult p (run p))) []
      hkeysnodup (by intro kv _ kv2 h2; cases h2)
    rw [List.foldl_map] at h2
    rw [List.nil_append] at h2
    exact h2
  have hres : CW.execute_document_generation run state
      = .ok (CW.finishGeneration
          { state with
              status := CW.AssessmentStatus.GENERATING_DOCUMENTS,
              current_stage := "document_generation" }
          (state.document_plans.map (fun p => CW.processParallelResult p (run p)))) := by
    unfold CW.execute_document_generation
    rw [if_neg (by rw [hne]; exact Bool.false_ne_true), if_pos hcond2]
    simp only [hzip, hfold]
  refine ⟨_, hres, rfl, ?_⟩
  intro p hp e hr
  refine ⟨?_, rfl, rfl⟩
  have h := dget_map_key (fun q => (CW.processParallelResult q (run q)).1)
    (fun q => (CW.processParallelResult q (run q)).2) state.document_plans p hnodupf hp
  simp only at h
  rw [hr] at h
  show dget (state.document_plans.map (fun q => CW.processParallelResult q (run q)))
      p.document_id = some (CW.failedTaskResult p e)
  simpa [CW.processParallelResult, Prod.mk.eta] using h

/-- Witness for C8: two parallel plans where only `doc_002` raises; the
failure is recorded on `doc_002` alone while `doc_001` keeps its
successful result. -/
theorem c8_failure_isolation_witness :
    (CW.parallelState.parallel_execution = true ∧
        1 < CW.parallelState.document_plans.length) ∧
      ∃ s2, CW.execute_document_generation CW.doc2RaisesRun CW.parallelState = .ok s2 ∧
        dget s2.document_results "doc_002"
            = some (CW.failedTaskResult (CW.examplePlan "doc_002") "boom") ∧
        dget s2.document_results "doc_001" = some (CW.okResult "doc_001") := by
  have hids0 : ∀ p ∈ CW.parallelState.document_plans,
      (match CW.doc2RaisesRun p with
       | CW.TaskOutcome.returned r => decide (r.document_id = p.document_id)
       | CW.TaskOutcome.raised _ => true) = true := by decide
  have hids : ∀ p ∈ CW.parallelState.document_plans, ∀ r,
      CW.doc2RaisesRun p = CW.TaskOutcome.returned r → r.document_id = p.document_id := by
    intro p hp r hr
    have h0 := hids0 p hp
    rw [hr] at h0
    exact of_decide_eq_true h0
  obtain ⟨s2, hok, hmap, hraised⟩ := c8_failure_isolation CW.doc2RaisesRun CW.parallelState
    rfl (by decide) (by decide) hids
  refine ⟨⟨rfl, by decide⟩, s2, hok, ?_, ?_⟩
  · have h := (hraised (CW.examplePlan "doc_002") (by decide) "boom" (by decide)).1
    exact h
  · rw [hmap]
    decide

/-- C1: for every request with a non-blank prompt and an explicit
blueprint of N entries, analysis creates exactly N document requirements,
one per entry in blueprint order, each carrying its source entry
(`blueprint_specification`) and position (`deliverable_index`); planning
then creates exactly one plan per requirement with ids `doc_001` ..
`doc_00N` assigned in that same order (the planner reply, ok or error,
only affects the execution-plan payload). -/
theorem c1_blueprint_work_items (identified_frameworks : List String)
    (fallback : CW.ComplianceAgentState → CW.ComplianceAgentState)
    (planner : Nat → CW.DocRequirement → CW.PlanningReply)
    (state : CW.ComplianceAgentState)
    (hprompt : py_strip state.user_prompt ≠ "")
    (hbp : state.deliverable_blueprint ≠ []) :
    ∃ s1, CWF.analyze_project_requirements identified_frameworks fallback state = .ok s1 ∧
      s1.required_documents.length = state.deliverable_blueprint.length ∧
      (∀ i b, state.deliverable_blueprint.get? i = some b →
        s1.required_documents.get? i
            = some (CW.blueprintDocRequirement identified_frameworks i b) ∧
          (CW.blueprintDocRequirement identified_frameworks i b).blueprint_specification = b ∧
          (CW.blueprintDocRequirement identified_frameworks i b).deliverable_index = i) ∧
      (CW.create_document_plans planner s1).document_plans.length
          = s1.required_documents.length ∧
      (∀ i req, s1.required_documents.get? i = some req →
        ∃ pl, (CW.create_document_plans planner s1).document_plans.get? i = some pl ∧
          pl.document_id = CW.doc_id_for i ∧
          pl.document_requirement = req ∧
          pl.status = CW.DocumentStatus.PENDING) := by
  have hbempty : state.deliverable_blueprint.isEmpty = false := by
    cases hx : state.deliverable_blueprint with
    | nil => exact absurd hx hbp
    | cons a t => rfl
  refine ⟨{ state with
      current_stage := "project_analysis",
      project_type := some "multi_document_pack",
      identified_frameworks := identified_frameworks,
      project_complexity := "very_high",
      estimated_duration := some "3-6 months",
      parallel_execution := decide (3 < (state.deliverable_blueprint.enum.map
        (fun ib => CW.blueprintDocRequirement identified_frameworks ib.1 ib.2)).length),
      required_documents := state.deliverable_blueprint.enum.map
        (fun ib => CW.blueprintDocRequirement identified_frameworks ib.1 ib.2),
      status := CW.AssessmentStatus.PLANNING_DOCUMENTS,
      messages := state.messages ++
        ["Project analysis complete using content-orchestrator blueprint: " ++
          toString (state.deliverable_blueprint.enum.map
            (fun ib => CW.blueprintDocRequirement identified_frameworks ib.1 ib.2)).length ++
          " specialized deliverables identified."] }, ?_, ?_, ?_, ?_, ?_⟩
  · unfold CWF.analyze_project_requirements
    rw [if_neg hprompt, if_pos (by rw [hbempty]; rfl)]
  · show (state.deliverable_blueprint.enum.map
        (fun ib => CW.blueprintDocRequirement identified_frameworks ib.1 ib.2)).length = _
    rw [List.length_map, List.enum_length]
  · intro i b hb
    refine ⟨?_, rfl, rfl⟩
    show (state.deliverable_blueprint.enum.map
        (fun ib => CW.blueprintDocRequirement identified_frameworks ib.1 ib.2)).get? i = _
    rw [List.get?_map, List.get?_enum, hb]
    rfl
  · have hne2 : (state.deliverable_blueprint.enum.map
        (fun ib => CW.blueprintDocRequirement identified_frameworks ib.1 ib.2)).isEmpty
          = false := by
      cases hx : state.deliverable_blueprint with
      | nil => exact absurd hx hbp
      | cons a t => rfl
    unfold CW.create_document_plans
    rw [if_neg (by rw [hne2]; exact Bool.false_ne_true)]
    rw [List.length_map, List.enum_length]
  · intro i req hreq
    have hne2 : (state.deliverable_blueprint.enum.map
        (fun ib => CW.blueprintDocRequirement identified_frameworks ib.1 ib.2)).isEmpty
          = false := by
      cases hx : state.deliverable_blueprint with
      | nil => exact absurd hx hbp
      | cons a t => rfl
    refine ⟨{ document_id := CW.doc_id_for i,
              document_requirement := req,
              execution_plan := (match planner i req with
                | CW.PlanningReply.ok payload => CW.ExecutionPlan.from_llm payload
                | CW.PlanningReply.llm_error _ => CW.ExecutionPlan.standard_fallback),
              status := CW.DocumentStatus.PENDING }, ?_, rfl, rfl, rfl⟩
    show (CW.create_document_plans planner _).document_plans.get? i = _
    unfold CW.create_document_plans
    rw [if_neg (by rw [hne2]; exact Bool.false_ne_true)]
    rw [List.get?_map, List.get?_enum]
    rw [show (state.deliverable_blueprint.enum.map
      (fun ib => CW.blueprintDocRequirement identified_frameworks ib.1 ib.2)).get? i
        = some req from hreq]
    rfl

/-- Witness for C1: the two-entry scenario blueprint yields exactly two
requirements and two plans. -/
theorem c1_blueprint_work_items_witness :
    (py_strip CW.blueprintState.user_prompt ≠ "" ∧
        CW.blueprintState.deliverable_blueprint ≠ []) ∧
      ∃ s1, CWF.analyze_project_requirements ["gdpr"] (fun s => s) CW.blueprintState
          = .ok s1 ∧
        s1.required_documents.length = 2 ∧
        (CW.create_document_plans (fun _ _ => CW.PlanningReply.llm_error "no llm") s1
          ).document_plans.length = 2 := by
  obtain ⟨s1, hok, hlen, hget, hplen, hpget⟩ := c1_blueprint_work_items ["gdpr"] (fun s => s)
    (fun _ _ => CW.PlanningReply.llm_error "no llm") CW.blueprintState
    (by decide) (by decide)
  refine ⟨⟨by decide, by decide⟩, s1, hok, ?_, ?_⟩
  · rw [hlen]
    rfl
  · rw [hplen, hlen]
    rfl

/-- C10: the module compliance_workflow.py is syntactically invalid.  In
the embedded region of create_document_plans, the line at offset 68
(source line 543) sits at code level (triple-quote parity false over the
prefix) and begins with two juxtaposed bare NAME tokens (`USER CONTEXT`),
which no Python statement may begin with; likewise in the region of
generate_single_document, the line at offset 47 (source line 679) sits at
code level and begins with `Generate the` — so both are SyntaxErrors and
the module cannot be parsed. -/
theorem c10_unparseable_module :
    (PySrc.tq_parity (PySrc.create_document_plans_src.take 68) = false ∧
      PySrc.create_document_plans_src.get? 68 = some PySrc.user_context_line ∧
      PySrc.begins_with_juxtaposed_names PySrc.user_context_line = true) ∧
    (PySrc.tq_parity (PySrc.generate_single_document_src.take 47) = false ∧
      PySrc.generate_single_document_src.get? 47 = some PySrc.generate_content_line ∧
      PySrc.begins_with_juxtaposed_names PySrc.generate_content_line = true) := by
  set_option maxRecDepth 4000 in
  exact ⟨⟨rfl, rfl, rfl⟩, rfl, rfl, rfl⟩
